import Mathlib

/-!
Verification of the `wfd` Windows file-dialog shim (`src/lib.rs`).

The source is a linear marshalling layer over COM: each session makes a fixed
sequence of native calls (`CoInitializeEx`, `CoCreateInstance`, the
`IFileDialog` setters, `IModalWindow::Show`, result extraction) and
short-circuits on the first failing HRESULT via the `com!` wrapper.

The embedding below mirrors the source functions over an instrumented fake
native layer (`NativeEnv`): the HRESULT and out-values of every native call are
supplied by the environment, every call and every handle acquisition/release
is recorded in an event trace, and the mutable native dialog state that the
source reads back (`GetOptions`, `GetFileTypeIndex`) is threaded explicitly.
-/

namespace Wfd

/-- `SUCCEEDED(hr)` from `winapi::shared::winerror`: an HRESULT is a success
iff it is non-negative. -/
def SUCCEEDED (hr : Int) : Bool := decide (0 ≤ hr)

/-- The native user-cancel status code. The source compares the raw `i32`
HRESULT against the literal `0x8007_04C7` under `#[allow(overflowing_literals)]`,
i.e. against the twos-complement value of `0x800704C7` as an `i32`. -/
def hresultCancelled : Int := 0x800704C7 - 0x100000000

/-- `const SFGAO_FILESYSTEM: u32 = 0x4000_0000` from the source. -/
def SFGAO_FILESYSTEM : Nat := 0x40000000

/-- `DialogParams` from the source (lifetimes and `&str` dropped; `HWND`
modelled as an opaque `Option Unit` since only its presence matters). -/
structure DialogParams where
  default_extension : String
  default_folder : String
  file_name : String
  file_name_label : String
  file_type_index : Nat
  file_types : List (String × String)
  folder : String
  ok_button_label : String
  options : Nat
  owner : Option Unit
  save_as_item : String
  title : String
deriving DecidableEq, Repr

/-- `impl Default for DialogParams` from the source. -/
def DialogParams.default : DialogParams :=
  { default_extension := ""
    default_folder := ""
    file_name := ""
    file_name_label := ""
    file_type_index := 1
    file_types := [("All types (*.*)", "*.*")]
    folder := ""
    ok_button_label := ""
    options := 0
    owner := none
    save_as_item := ""
    title := "" }

/-- `OpenDialogResult` from the source (`PathBuf` modelled as `String`). -/
structure OpenDialogResult where
  selected_file_path : String
  selected_file_paths : List String
  selected_file_type_index : Nat
deriving DecidableEq, Repr

/-- `SaveDialogResult` from the source. -/
structure SaveDialogResult where
  selected_file_path : String
  selected_filter_index : Nat
deriving DecidableEq, Repr

/-- `DialogError` from the source. -/
inductive DialogError where
  | UserCancelled : DialogError
  | UnsupportedFilepath : DialogError
  | HResultFailed : (error_method : String) → (hresult : Int) → DialogError
deriving DecidableEq, Repr

/-- The kinds of native resources the source acquires and must release:
the COM environment (`CoInitializeEx`/`CoUninitialize`), the dialog COM
instance, `IShellItem` handles, the `IShellItemArray`, and display-name
buffers (`CoTaskMemFree`). -/
inductive Res where
  | comEnv : Res
  | dialog : Res
  | shellItem : Res
  | itemArray : Res
  | nameBuffer : Res
deriving DecidableEq, Repr

/-- Instrumentation events: each native call with its HRESULT, and each
resource acquisition/release. -/
inductive Ev where
  | call : String → Int → Ev
  | acquire : Res → Ev
  | release : Res → Ev
deriving DecidableEq, Repr

/-- The mutable state of the native dialog object that the source later
reads back (`GetOptions`, `GetFileTypeIndex`) or sets (`SetFileTypes`,
`SetFileTypeIndex`, `SetOptions`). -/
structure DialogState where
  options : Nat
  fileTypeIndex : Nat
  fileTypes : List (String × String)
deriving DecidableEq, Repr

/-- State threaded through a session: the native dialog state plus the
instrumentation trace. -/
structure SessionState where
  dialog : DialogState
  trace : List Ev
deriving DecidableEq, Repr

/-- The instrumented fake native layer: for each native entry point the
source calls, the HRESULT it returns and the out-values it writes.
`userFileTypeIndex` models how the user interacts with the file-type
dropdown while `IModalWindow::Show` blocks. -/
structure NativeEnv where
  coInitializeEx : Int
  coCreateInstance : Int
  shCreateItem : String → Int
  setSaveAsItem : Int
  setDefaultExtension : Int
  setDefaultFolder : Int
  setFolder : Int
  setFileName : Int
  setFileNameLabel : Int
  setFileTypes : Int
  setFileTypeIndex : Int
  setOkButtonLabel : Int
  getOptions : Int
  setOptions : Int
  setTitle : Int
  showHr : Int
  getResults : Int
  getCount : Int
  itemCount : Nat
  getItemAt : Nat → Int
  getAttributes : Nat → Int
  itemAttribs : Nat → Nat
  getDisplayName : Nat → Int
  itemName : Nat → String
  getResult : Int
  saveGetDisplayName : Int
  saveItemName : String
  getFileTypeIndex : Int
  initOptions : Nat
  initFileTypeIndex : Nat
  initFileTypes : List (String × String)
  userFileTypeIndex : Nat → Nat

/-- Session monad: state-and-trace passing with `DialogError` short-circuit,
mirroring Rust `Result` with the `?` operator. -/
abbrev M (α : Type) : Type := SessionState → Except DialogError α × SessionState

instance : Monad M where
  pure a := fun s => (Except.ok a, s)
  bind x f := fun s =>
    match x s with
    | (Except.ok a, s1) => f a s1
    | (Except.error e, s1) => (Except.error e, s1)

/-- Append one instrumentation event. -/
def addEv (s : SessionState) (e : Ev) : SessionState :=
  { dialog := s.dialog, trace := s.trace ++ [e] }

/-- Record an instrumentation event. -/
def emit (e : Ev) : M Unit := fun s => (Except.ok (), addEv s e)

/-- Rust `return Err(e)` / `?` on an error value. -/
def throwE {α : Type} (e : DialogError) : M α := fun s => (Except.error e, s)

/-- Read the current state of the native dialog object. -/
def getDialog : M DialogState := fun s => (Except.ok s.dialog, s)

/-- A successful native setter updating the state of the dialog object. -/
def setDialog (f : DialogState → DialogState) : M Unit := fun s =>
  (Except.ok (), { dialog := f s.dialog, trace := s.trace })

/-- The `com` wrapper from the source: returns `Err(HResultFailed)` iff the
HRESULT does not satisfy `SUCCEEDED`. The call is recorded in the trace. -/
def com (hr : Int) (method : String) : M Unit := do
  emit (Ev.call method hr)
  if SUCCEEDED hr then pure () else throwE (DialogError.HResultFailed method hr)

/-- `get_shell_item_display_name` from the source: `IShellItem::GetDisplayName`
allocates a wide-string buffer (acquired on success), the path is copied out,
and the buffer is freed with `CoTaskMemFree`. -/
def get_shell_item_display_name (hr : Int) (name : String) : M String := do
  com hr "IShellItem::GetDisplayName"
  emit (Ev.acquire Res.nameBuffer)
  emit (Ev.release Res.nameBuffer)
  pure name

/-- `get_file_type_index` from the source: `IFileDialog::GetFileTypeIndex`
reads the current file-type index of the dialog. -/
def get_file_type_index (env : NativeEnv) : M Nat := do
  com env.getFileTypeIndex "IFileDialog::GetFileTypeIndex"
  let d ← getDialog
  pure d.fileTypeIndex

/-- `add_filters` from the source: one `IFileDialog::SetFileTypes` call with
the whole filter array; on success the filter list of the dialog becomes `filters`. -/
def add_filters (env : NativeEnv) (filters : List (String × String)) : M Unit := do
  com env.setFileTypes "IFileDialog::SetFileTypes"
  setDialog (fun d => { d with fileTypes := filters })

/-- `show_dialog` from the source: `IModalWindow::Show`, with the
user-cancel HRESULT translated to `UserCancelled` and every other failure
passed through unchanged. On success the interaction of the user with the
file-type dropdown (while the modal dialog blocked) is applied. -/
def show_dialog (env : NativeEnv) (owner : Option Unit) : M Unit := fun s =>
  match com env.showHr "IModalWindow::Show" s with
  | (Except.ok _, s1) =>
      (Except.ok (),
        { dialog := { s1.dialog with
            fileTypeIndex := env.userFileTypeIndex s1.dialog.fileTypeIndex }
          trace := s1.trace })
  | (Except.error e, s1) =>
      match e with
      | DialogError.HResultFailed _ hresult =>
          if hresult = hresultCancelled then
            (Except.error DialogError.UserCancelled, s1)
          else
            (Except.error e, s1)
      | _ => (Except.error e, s1)

/-- The `IFileDialog::SetDefaultExtension` block of `configure_file_dialog`. -/
def cfgDefaultExtension (env : NativeEnv) (p : DialogParams) : M Unit :=
  if p.default_extension ≠ "" then
    com env.setDefaultExtension "IFileDialog::SetDefaultExtension"
  else
    pure ()

/-- The `IFileDialog::SetDefaultFolder` block of `configure_file_dialog`:
resolve the path with `SHCreateItemFromParsingName` (acquiring an
`IShellItem`), bind it, release the item (release skipped if the set fails). -/
def cfgDefaultFolder (env : NativeEnv) (p : DialogParams) : M Unit :=
  if p.default_folder ≠ "" then do
    com (env.shCreateItem p.default_folder) "SHCreateItemFromParsingName"
    emit (Ev.acquire Res.shellItem)
    com env.setDefaultFolder "IFileDialog::SetDefaultFolder"
    emit (Ev.release Res.shellItem)
  else
    pure ()

/-- The `IFileDialog::SetFolder` block of `configure_file_dialog`. -/
def cfgFolder (env : NativeEnv) (p : DialogParams) : M Unit :=
  if p.folder ≠ "" then do
    com (env.shCreateItem p.folder) "SHCreateItemFromParsingName"
    emit (Ev.acquire Res.shellItem)
    com env.setFolder "IFileDialog::SetFolder"
    emit (Ev.release Res.shellItem)
  else
    pure ()

/-- The `IFileDialog::SetFileName` block of `configure_file_dialog`. -/
def cfgFileName (env : NativeEnv) (p : DialogParams) : M Unit :=
  if p.file_name ≠ "" then
    com env.setFileName "IFileDialog::SetFileName"
  else
    pure ()

/-- The `IFileDialog::SetFileNameLabel` block of `configure_file_dialog`. -/
def cfgFileNameLabel (env : NativeEnv) (p : DialogParams) : M Unit :=
  if p.file_name_label ≠ "" then
    com env.setFileNameLabel "IFileDialog::SetFileNameLabel"
  else
    pure ()

/-- The `add_filters` block of `configure_file_dialog` (guarded on a
non-empty filter list). -/
def cfgFileTypes (env : NativeEnv) (p : DialogParams) : M Unit :=
  if p.file_types ≠ [] then
    add_filters env p.file_types
  else
    pure ()

/-- The `IFileDialog::SetFileTypeIndex` block of `configure_file_dialog`. -/
def cfgFileTypeIndex (env : NativeEnv) (p : DialogParams) : M Unit :=
  if p.file_types ≠ [] ∧ p.file_type_index > 0 then do
    com env.setFileTypeIndex "IFileDialog::SetFileTypeIndex"
    setDialog (fun d => { d with fileTypeIndex := p.file_type_index })
  else
    pure ()

/-- The `IFileDialog::SetOkButtonLabel` block of `configure_file_dialog`. -/
def cfgOkButtonLabel (env : NativeEnv) (p : DialogParams) : M Unit :=
  if p.ok_button_label ≠ "" then
    com env.setOkButtonLabel "IFileDialog::SetOkButtonLabel"
  else
    pure ()

/-- The options block of `configure_file_dialog`: `IFileDialog::GetOptions`
reads the existing flags, `IFileDialog::SetOptions` sets the bitwise OR of
the existing and the requested flags. -/
def cfgOptions (env : NativeEnv) (p : DialogParams) : M Unit :=
  if p.options > 0 then do
    com env.getOptions "IFileDialog::GetOptions"
    let existing ← getDialog
    com env.setOptions "IFileDialog::SetOptions"
    setDialog (fun d => { d with options := existing.options ||| p.options })
  else
    pure ()

/-- The `IFileDialog::SetTitle` block of `configure_file_dialog`. -/
def cfgTitle (env : NativeEnv) (p : DialogParams) : M Unit :=
  if p.title ≠ "" then
    com env.setTitle "IFileDialog::SetTitle"
  else
    pure ()

/-- `configure_file_dialog` from the source: the shared configuration
sequence, each step guarded on its field being non-empty/non-zero, each
native call via `com!` with `?` (so the first failure aborts the rest). -/
def configure_file_dialog (env : NativeEnv) (p : DialogParams) : M Unit := do
  cfgDefaultExtension env p
  cfgDefaultFolder env p
  cfgFolder env p
  cfgFileName env p
  cfgFileNameLabel env p
  cfgFileTypes env p
  cfgFileTypeIndex env p
  cfgOkButtonLabel env p
  cfgOptions env p
  cfgTitle env p

/-- The body of the `for i in 0..item_count` loop of `open_dialog`:
`GetItemAt` (acquiring an `IShellItem`), `GetAttributes`, the
`SFGAO_FILESYSTEM` check (`continue` skips the item — and skips its
`Release`), then `get_shell_item_display_name` and `Release`. -/
def open_item (env : NativeEnv) (i : Nat) : M (Option String) := do
  com (env.getItemAt i) "IShellItemArray::GetItemAt"
  emit (Ev.acquire Res.shellItem)
  com (env.getAttributes i) "IShellItem::GetAttributes"
  if env.itemAttribs i &&& SFGAO_FILESYSTEM = 0 then
    pure none
  else do
    let file_name ← get_shell_item_display_name (env.getDisplayName i) (env.itemName i)
    emit (Ev.release Res.shellItem)
    pure (some file_name)

/-- The `for i in 0..item_count` loop of `open_dialog`, accumulating
`file_paths` in selection order. `open_items env n` runs items `0 .. n-1`. -/
def open_items (env : NativeEnv) : Nat → M (List String)
  | 0 => pure []
  | Nat.succ n => do
      let prev ← open_items env n
      match ← open_item env n with
      | some file_name => pure (prev ++ [file_name])
      | none => pure prev

/-- `open_dialog` from the source. -/
def open_dialog (p : DialogParams) (env : NativeEnv) : M OpenDialogResult := do
  com env.coInitializeEx "CoInitializeEx"
  emit (Ev.acquire Res.comEnv)
  com env.coCreateInstance "CoCreateInstance - IFileOpenDialog"
  emit (Ev.acquire Res.dialog)
  configure_file_dialog env p
  show_dialog env p.owner
  com env.getResults "IFileOpenDialog::GetResults"
  emit (Ev.acquire Res.itemArray)
  com env.getCount "IShellItemArray::GetCount"
  let file_paths ← open_items env env.itemCount
  let selected_filter_index ← get_file_type_index env
  emit (Ev.release Res.comEnv)
  match file_paths with
  | x :: _ =>
      pure { selected_file_path := x
             selected_file_paths := file_paths
             selected_file_type_index := selected_filter_index }
  | [] => throwE DialogError.UnsupportedFilepath

/-- The `IFileDialog::SetSaveAsItem` pre-step of `save_dialog`: resolve the
seed path to an `IShellItem`, bind it, release the item. -/
def saveAsItemStep (env : NativeEnv) (p : DialogParams) : M Unit :=
  if p.save_as_item ≠ "" then do
    com (env.shCreateItem p.save_as_item) "SHCreateItemFromParsingName"
    emit (Ev.acquire Res.shellItem)
    com env.setSaveAsItem "IFileDialog::SetSaveAsItem"
    emit (Ev.release Res.shellItem)
  else
    pure ()

/-- `save_dialog` from the source. -/
def save_dialog (p : DialogParams) (env : NativeEnv) : M SaveDialogResult := do
  com env.coInitializeEx "CoInitializeEx"
  emit (Ev.acquire Res.comEnv)
  com env.coCreateInstance "CoCreateInstance - FileSaveDialog"
  emit (Ev.acquire Res.dialog)
  saveAsItemStep env p
  configure_file_dialog env p
  show_dialog env p.owner
  com env.getResult "IFileDialog::GetResult"
  emit (Ev.acquire Res.shellItem)
  let file_name ← get_shell_item_display_name env.saveGetDisplayName env.saveItemName
  emit (Ev.release Res.shellItem)
  let selected_filter_index ← get_file_type_index env
  emit (Ev.release Res.comEnv)
  pure { selected_file_path := file_name
         selected_filter_index := selected_filter_index }

/-- The state of the dialog object at creation, as supplied by the native layer. -/
def DialogState.init (env : NativeEnv) : DialogState :=
  { options := env.initOptions
    fileTypeIndex := env.initFileTypeIndex
    fileTypes := env.initFileTypes }

/-- Initial session state: fresh dialog state, empty trace. -/
def initS (env : NativeEnv) : SessionState :=
  { dialog := DialogState.init env, trace := [] }

/-- Run `open_dialog` from a fresh session. -/
def openRun (p : DialogParams) (env : NativeEnv) :
    Except DialogError OpenDialogResult × SessionState :=
  open_dialog p env (initS env)

/-- The result `open_dialog` returns. -/
def openResult (p : DialogParams) (env : NativeEnv) :
    Except DialogError OpenDialogResult :=
  (openRun p env).1

/-- The instrumentation trace of an `open_dialog` session. -/
def openTrace (p : DialogParams) (env : NativeEnv) : List Ev :=
  (openRun p env).2.trace

/-- The native dialog state after an `open_dialog` session. -/
def openDialogState (p : DialogParams) (env : NativeEnv) : DialogState :=
  (openRun p env).2.dialog

/-- Run `save_dialog` from a fresh session. -/
def saveRun (p : DialogParams) (env : NativeEnv) :
    Except DialogError SaveDialogResult × SessionState :=
  save_dialog p env (initS env)

/-- The result `save_dialog` returns. -/
def saveResult (p : DialogParams) (env : NativeEnv) :
    Except DialogError SaveDialogResult :=
  (saveRun p env).1

/-- The instrumentation trace of a `save_dialog` session. -/
def saveTrace (p : DialogParams) (env : NativeEnv) : List Ev :=
  (saveRun p env).2.trace

/-- Run `configure_file_dialog` alone from a fresh session. -/
def configureRun (env : NativeEnv) (p : DialogParams) :
    Except DialogError Unit × SessionState :=
  configure_file_dialog env p (initS env)

/-- The trace of a `configure_file_dialog` run. -/
def configureTrace (env : NativeEnv) (p : DialogParams) : List Ev :=
  (configureRun env p).2.trace

/-- The method name of a call event. -/
def Ev.methodOf : Ev → Option String
  | Ev.call m _ => some m
  | _ => none

/-- The native methods called, in order. -/
def callNames (t : List Ev) : List String := t.filterMap Ev.methodOf

/-- Whether an event is a resource acquisition. -/
def isAcquire : Ev → Bool
  | Ev.acquire _ => true
  | _ => false

/-- Whether an event is a resource release. -/
def isRelease : Ev → Bool
  | Ev.release _ => true
  | _ => false

/-- Number of native resource acquisitions in a trace. -/
def acquireCount (t : List Ev) : Nat := (t.filter isAcquire).length

/-- Number of native resource releases in a trace. -/
def releaseCount (t : List Ev) : Nat := (t.filter isRelease).length

deriving instance DecidableEq for Except

/-! ### Run lemmas for the session monad -/

theorem run_pure {α : Type} (a : α) (s : SessionState) :
    (pure a : M α) s = (Except.ok a, s) := rfl

theorem run_bind {α β : Type} (x : M α) (f : α → M β) (s : SessionState) :
    (x >>= f) s =
      match x s with
      | (Except.ok a, s1) => f a s1
      | (Except.error e, s1) => (Except.error e, s1) := rfl

theorem bind_ok {α β : Type} {x : M α} {f : α → M β} {s s1 : SessionState} {a : α}
    (h : x s = (Except.ok a, s1)) : (x >>= f) s = f a s1 := by
  rw [run_bind, h]

theorem bind_err {α β : Type} {x : M α} {f : α → M β} {s s1 : SessionState}
    {e : DialogError} (h : x s = (Except.error e, s1)) :
    (x >>= f) s = (Except.error e, s1) := by
  rw [run_bind, h]

theorem com_run_ok {hr : Int} (method : String) {s : SessionState}
    (h : SUCCEEDED hr = true) :
    com hr method s = (Except.ok (), addEv s (Ev.call method hr)) := by
  simp [com, run_bind, emit, h, run_pure]

theorem com_run_fail {hr : Int} (method : String) {s : SessionState}
    (h : SUCCEEDED hr = false) :
    com hr method s =
      (Except.error (DialogError.HResultFailed method hr),
       addEv s (Ev.call method hr)) := by
  simp [com, run_bind, emit, h, throwE]

theorem emit_run (e : Ev) (s : SessionState) :
    emit e s = (Except.ok (), addEv s e) := rfl

theorem setDialog_run (f : DialogState → DialogState) (s : SessionState) :
    setDialog f s = (Except.ok (), { dialog := f s.dialog, trace := s.trace }) := rfl

theorem getDialog_run (s : SessionState) :
    getDialog s = (Except.ok s.dialog, s) := rfl

theorem throwE_run {α : Type} (e : DialogError) (s : SessionState) :
    (throwE e : M α) s = (Except.error e, s) := rfl

/-! ### Never-this-error framework

`NeverErr bad a` says action `a` can never finish with the error `bad`,
whatever the session state. Used for: configuration steps never produce
`UserCancelled` (that translation happens only at display time), and
`save_dialog` never produces `UnsupportedFilepath`. -/

def NeverErr {α : Type} (bad : DialogError) (a : M α) : Prop :=
  ∀ s, (a s).1 ≠ Except.error bad

theorem neverErr_pure {α : Type} {bad : DialogError} (x : α) :
    NeverErr bad (pure x : M α) := by
  intro s
  simp [run_pure]

theorem neverErr_bind {α β : Type} {bad : DialogError} {a : M α} {f : α → M β}
    (ha : NeverErr bad a) (hf : ∀ x, NeverErr bad (f x)) :
    NeverErr bad (a >>= f) := by
  intro s
  rw [run_bind]
  rcases h : a s with ⟨r, s1⟩
  rcases r with e | x
  · have := ha s
    rw [h] at this
    simpa using this
  · exact hf x s1

theorem neverErr_ite {α : Type} {bad : DialogError} {c : Prop} [Decidable c]
    {a b : M α} (ha : NeverErr bad a) (hb : NeverErr bad b) :
    NeverErr bad (if c then a else b) := by
  by_cases h : c <;> simp [h, ha, hb]

theorem neverErr_emit {bad : DialogError} (e : Ev) : NeverErr bad (emit e) := by
  intro s
  simp [emit_run]

theorem neverErr_setDialog {bad : DialogError} (f : DialogState → DialogState) :
    NeverErr bad (setDialog f) := by
  intro s
  simp [setDialog_run]

theorem neverErr_getDialog {bad : DialogError} : NeverErr bad getDialog := by
  intro s
  simp [getDialog_run]

theorem neverErr_throwE {α : Type} {bad e : DialogError} (h : e ≠ bad) :
    NeverErr bad (throwE e : M α) := by
  intro s
  simp [throwE_run, h]

theorem neverErr_com {bad : DialogError}
    (h : ∀ m hr2, bad ≠ DialogError.HResultFailed m hr2) (hr : Int) (m : String) :
    NeverErr bad (com hr m) := by
  intro s
  rcases hb : SUCCEEDED hr with _ | _
  · rw [com_run_fail m hb]
    simp [Ne.symm (h m hr)]
  · rw [com_run_ok m hb]
    simp

theorem neverErr_com_cancelled (hr : Int) (m : String) :
    NeverErr DialogError.UserCancelled (com hr m) :=
  neverErr_com (by intro m2 hr2 h; cases h) hr m

theorem neverErr_com_unsupported (hr : Int) (m : String) :
    NeverErr DialogError.UnsupportedFilepath (com hr m) :=
  neverErr_com (by intro m2 hr2 h; cases h) hr m

theorem neverErr_show_unsupported (env : NativeEnv) (owner : Option Unit) :
    NeverErr DialogError.UnsupportedFilepath (show_dialog env owner) := by
  intro s
  rw [show_dialog]
  rcases hb : SUCCEEDED env.showHr with _ | _
  · rw [com_run_fail _ hb]
    by_cases hc : env.showHr = hresultCancelled <;> simp [hc]
  · rw [com_run_ok _ hb]
    simp

theorem neverErr_iteUnit {bad : DialogError} {c : Prop} [Decidable c] {a : M Unit}
    (ha : NeverErr bad a) : NeverErr bad (if c then a else pure ()) :=
  neverErr_ite ha (neverErr_pure ())

theorem unsupported_ne_hres :
    ∀ m hr, DialogError.UnsupportedFilepath ≠ DialogError.HResultFailed m hr := by
  intro m hr h
  cases h

theorem cancelled_ne_hres :
    ∀ m hr, DialogError.UserCancelled ≠ DialogError.HResultFailed m hr := by
  intro m hr h
  cases h

theorem neverErr_cfgDefaultExtension {bad : DialogError}
    (h : ∀ m hr, bad ≠ DialogError.HResultFailed m hr) (env : NativeEnv) (p : DialogParams) :
    NeverErr bad (cfgDefaultExtension env p) := by
  unfold cfgDefaultExtension
  exact neverErr_iteUnit (neverErr_com h _ _)

theorem neverErr_cfgDefaultFolder {bad : DialogError}
    (h : ∀ m hr, bad ≠ DialogError.HResultFailed m hr) (env : NativeEnv) (p : DialogParams) :
    NeverErr bad (cfgDefaultFolder env p) := by
  unfold cfgDefaultFolder
  exact neverErr_iteUnit (neverErr_bind (neverErr_com h _ _) (fun _ =>
    neverErr_bind (neverErr_emit _) (fun _ =>
      neverErr_bind (neverErr_com h _ _) (fun _ => neverErr_emit _))))

theorem neverErr_cfgFolder {bad : DialogError}
    (h : ∀ m hr, bad ≠ DialogError.HResultFailed m hr) (env : NativeEnv) (p : DialogParams) :
    NeverErr bad (cfgFolder env p) := by
  unfold cfgFolder
  exact neverErr_iteUnit (neverErr_bind (neverErr_com h _ _) (fun _ =>
    neverErr_bind (neverErr_emit _) (fun _ =>
      neverErr_bind (neverErr_com h _ _) (fun _ => neverErr_emit _))))

theorem neverErr_cfgFileName {bad : DialogError}
    (h : ∀ m hr, bad ≠ DialogError.HResultFailed m hr) (env : NativeEnv) (p : DialogParams) :
    NeverErr bad (cfgFileName env p) := by
  unfold cfgFileName
  exact neverErr_iteUnit (neverErr_com h _ _)

theorem neverErr_cfgFileNameLabel {bad : DialogError}
    (h : ∀ m hr, bad ≠ DialogError.HResultFailed m hr) (env : NativeEnv) (p : DialogParams) :
    NeverErr bad (cfgFileNameLabel env p) := by
  unfold cfgFileNameLabel
  exact neverErr_iteUnit (neverErr_com h _ _)

theorem neverErr_cfgFileTypes {bad : DialogError}
    (h : ∀ m hr, bad ≠ DialogError.HResultFailed m hr) (env : NativeEnv) (p : DialogParams) :
    NeverErr bad (cfgFileTypes env p) := by
  unfold cfgFileTypes add_filters
  exact neverErr_iteUnit (neverErr_bind (neverErr_com h _ _) (fun _ => neverErr_setDialog _))

theorem neverErr_cfgFileTypeIndex {bad : DialogError}
    (h : ∀ m hr, bad ≠ DialogError.HResultFailed m hr) (env : NativeEnv) (p : DialogParams) :
    NeverErr bad (cfgFileTypeIndex env p) := by
  unfold cfgFileTypeIndex
  exact neverErr_iteUnit (neverErr_bind (neverErr_com h _ _) (fun _ => neverErr_setDialog _))

theorem neverErr_cfgOkButtonLabel {bad : DialogError}
    (h : ∀ m hr, bad ≠ DialogError.HResultFailed m hr) (env : NativeEnv) (p : DialogParams) :
    NeverErr bad (cfgOkButtonLabel env p) := by
  unfold cfgOkButtonLabel
  exact neverErr_iteUnit (neverErr_com h _ _)

theorem neverErr_cfgOptions {bad : DialogError}
    (h : ∀ m hr, bad ≠ DialogError.HResultFailed m hr) (env : NativeEnv) (p : DialogParams) :
    NeverErr bad (cfgOptions env p) := by
  unfold cfgOptions
  exact neverErr_iteUnit (neverErr_bind (neverErr_com h _ _) (fun _ =>
    neverErr_bind neverErr_getDialog (fun existing =>
      neverErr_bind (neverErr_com h _ _) (fun _ => neverErr_setDialog _))))

theorem neverErr_cfgTitle {bad : DialogError}
    (h : ∀ m hr, bad ≠ DialogError.HResultFailed m hr) (env : NativeEnv) (p : DialogParams) :
    NeverErr bad (cfgTitle env p) := by
  unfold cfgTitle
  exact neverErr_iteUnit (neverErr_com h _ _)

/-- `configure_file_dialog` can only fail with `HResultFailed`: any error
value not of that shape is never produced by a configuration step. -/
theorem configure_neverErr {bad : DialogError}
    (h : ∀ m hr, bad ≠ DialogError.HResultFailed m hr)
    (env : NativeEnv) (p : DialogParams) :
    NeverErr bad (configure_file_dialog env p) := by
  unfold configure_file_dialog
  exact neverErr_bind (neverErr_cfgDefaultExtension h env p) (fun _ =>
    neverErr_bind (neverErr_cfgDefaultFolder h env p) (fun _ =>
      neverErr_bind (neverErr_cfgFolder h env p) (fun _ =>
        neverErr_bind (neverErr_cfgFileName h env p) (fun _ =>
          neverErr_bind (neverErr_cfgFileNameLabel h env p) (fun _ =>
            neverErr_bind (neverErr_cfgFileTypes h env p) (fun _ =>
              neverErr_bind (neverErr_cfgFileTypeIndex h env p) (fun _ =>
                neverErr_bind (neverErr_cfgOkButtonLabel h env p) (fun _ =>
                  neverErr_bind (neverErr_cfgOptions h env p) (fun _ =>
                    neverErr_cfgTitle h env p)))))))))

theorem configure_neverErr_cancelled (env : NativeEnv) (p : DialogParams) :
    NeverErr DialogError.UserCancelled (configure_file_dialog env p) :=
  configure_neverErr cancelled_ne_hres env p

theorem configure_neverErr_unsupported (env : NativeEnv) (p : DialogParams) :
    NeverErr DialogError.UnsupportedFilepath (configure_file_dialog env p) :=
  configure_neverErr unsupported_ne_hres env p

theorem neverErr_saveAsItemStep {bad : DialogError}
    (h : ∀ m hr, bad ≠ DialogError.HResultFailed m hr) (env : NativeEnv) (p : DialogParams) :
    NeverErr bad (saveAsItemStep env p) := by
  unfold saveAsItemStep
  exact neverErr_iteUnit (neverErr_bind (neverErr_com h _ _) (fun _ =>
    neverErr_bind (neverErr_emit _) (fun _ =>
      neverErr_bind (neverErr_com h _ _) (fun _ => neverErr_emit _))))

theorem neverErr_get_shell_item_display_name {bad : DialogError}
    (h : ∀ m hr, bad ≠ DialogError.HResultFailed m hr) (hr : Int) (name : String) :
    NeverErr bad (get_shell_item_display_name hr name) := by
  unfold get_shell_item_display_name
  exact neverErr_bind (neverErr_com h _ _) (fun _ =>
    neverErr_bind (neverErr_emit _) (fun _ =>
      neverErr_bind (neverErr_emit _) (fun _ => neverErr_pure _)))

theorem neverErr_get_file_type_index {bad : DialogError}
    (h : ∀ m hr, bad ≠ DialogError.HResultFailed m hr) (env : NativeEnv) :
    NeverErr bad (get_file_type_index env) := by
  unfold get_file_type_index
  exact neverErr_bind (neverErr_com h _ _) (fun _ =>
    neverErr_bind neverErr_getDialog (fun d => neverErr_pure _))

/-- `save_dialog` never produces `UnsupportedFilepath`: the filesystem-backed
attribute check exists only in `open_dialog`. -/
theorem save_neverErr_unsupported (p : DialogParams) (env : NativeEnv) :
    NeverErr DialogError.UnsupportedFilepath (save_dialog p env) := by
  unfold save_dialog
  exact neverErr_bind (neverErr_com unsupported_ne_hres _ _) (fun _ =>
    neverErr_bind (neverErr_emit _) (fun _ =>
      neverErr_bind (neverErr_com unsupported_ne_hres _ _) (fun _ =>
        neverErr_bind (neverErr_emit _) (fun _ =>
          neverErr_bind (neverErr_saveAsItemStep unsupported_ne_hres env p) (fun _ =>
            neverErr_bind (configure_neverErr_unsupported env p) (fun _ =>
              neverErr_bind (neverErr_show_unsupported env p.owner) (fun _ =>
                neverErr_bind (neverErr_com unsupported_ne_hres _ _) (fun _ =>
                  neverErr_bind (neverErr_emit _) (fun _ =>
                    neverErr_bind (neverErr_get_shell_item_display_name unsupported_ne_hres _ _) (fun _ =>
                      neverErr_bind (neverErr_emit _) (fun _ =>
                        neverErr_bind (neverErr_get_file_type_index unsupported_ne_hres env) (fun _ =>
                          neverErr_bind (neverErr_emit _) (fun _ =>
                            neverErr_pure _)))))))))))))

/-! ### Com-sequence characterization

`ComSeq a` says three things about an action `a`, for every start state:
it only appends events `t` to the trace; it finishes with `UserCancelled`
exactly when `t` contains the `IModalWindow::Show` call returning the
native cancel code; and if `t` contains any other failing native call,
that call is the last event of `t` and the result is `HResultFailed` with
exactly the name and code of that call (first failure short-circuits). -/

/-- The display-step call event carrying the native cancel code. -/
def showCancelEv : Ev := Ev.call "IModalWindow::Show" hresultCancelled

theorem succeeded_cancel_false : SUCCEEDED hresultCancelled = false := by decide

def ComSeq {α : Type} (a : M α) : Prop :=
  ∀ s, ∃ t, (a s).2.trace = s.trace ++ t ∧
    ((a s).1 = Except.error DialogError.UserCancelled ↔ showCancelEv ∈ t) ∧
    (∀ m hr, Ev.call m hr ∈ t → SUCCEEDED hr = false → m ≠ "IModalWindow::Show" →
      (a s).1 = Except.error (DialogError.HResultFailed m hr) ∧
      ∃ t0, t = t0 ++ [Ev.call m hr])

/-- Actions that do not touch the trace and do not produce `UserCancelled`
are com-sequences with empty event list. -/
theorem comSeq_triv {α : Type} {a : M α}
    (h : ∀ s, (a s).2.trace = s.trace ∧
      (a s).1 ≠ Except.error DialogError.UserCancelled) : ComSeq a := by
  intro s
  refine ⟨[], by simp [(h s).1], ?_, ?_⟩
  · simp [(h s).2]
  · intro m hr hm
    simp at hm

theorem comSeq_pure {α : Type} (x : α) : ComSeq (pure x : M α) :=
  comSeq_triv (fun s => ⟨by simp [run_pure], by simp [run_pure]⟩)

theorem comSeq_setDialog (f : DialogState → DialogState) : ComSeq (setDialog f) :=
  comSeq_triv (fun s => ⟨by simp [setDialog_run], by simp [setDialog_run]⟩)

theorem comSeq_getDialog : ComSeq getDialog :=
  comSeq_triv (fun s => ⟨by simp [getDialog_run], by simp [getDialog_run]⟩)

theorem comSeq_throwE {α : Type} {e : DialogError}
    (h : e ≠ DialogError.UserCancelled) : ComSeq (throwE e : M α) :=
  comSeq_triv (fun s => ⟨by simp [throwE_run], by simp [throwE_run, h]⟩)

theorem comSeq_emit {e : Ev} (h : ∀ m hr, e ≠ Ev.call m hr) : ComSeq (emit e) := by
  intro s
  refine ⟨[e], by simp [emit_run, addEv], ?_, ?_⟩
  · have : e ≠ showCancelEv := h "IModalWindow::Show" hresultCancelled
    simp [emit_run, Ne.symm this]
  · intro m hr hm
    simp at hm
    exact absurd hm.symm (h m hr)

theorem comSeq_emit_acquire (r : Res) : ComSeq (emit (Ev.acquire r)) :=
  comSeq_emit (by intro m hr h; cases h)

theorem comSeq_emit_release (r : Res) : ComSeq (emit (Ev.release r)) :=
  comSeq_emit (by intro m hr h; cases h)

theorem comSeq_com {hr : Int} {m : String} (hm : m ≠ "IModalWindow::Show") :
    ComSeq (com hr m) := by
  intro s
  rcases hb : SUCCEEDED hr with _ | _
  · refine ⟨[Ev.call m hr], ?_, ?_, ?_⟩
    · rw [com_run_fail m hb]
      simp [addEv]
    · rw [com_run_fail m hb]
      simp [showCancelEv, hm]
      exact fun he => absurd he.symm hm
    · intro m2 hr2 hmem hfail hne
      simp only [List.mem_singleton, Ev.call.injEq] at hmem
      rw [com_run_fail m hb, hmem.1, hmem.2]
      exact ⟨rfl, [], rfl⟩
  · refine ⟨[Ev.call m hr], ?_, ?_, ?_⟩
    · rw [com_run_ok m hb]
      simp [addEv]
    · rw [com_run_ok m hb]
      simp [showCancelEv, hm]
      exact fun he => absurd he.symm hm
    · intro m2 hr2 hmem hfail hne
      simp only [List.mem_singleton, Ev.call.injEq] at hmem
      rw [hmem.2] at hfail
      rw [hb] at hfail
      cases hfail

theorem comSeq_show (env : NativeEnv) (owner : Option Unit) :
    ComSeq (show_dialog env owner) := by
  intro s
  rw [show_dialog]
  rcases hb : SUCCEEDED env.showHr with _ | _
  · rw [com_run_fail _ hb]
    by_cases hc : env.showHr = hresultCancelled
    · refine ⟨[Ev.call "IModalWindow::Show" env.showHr], by simp [hc, addEv], ?_, ?_⟩
      · simp [hc, showCancelEv]
      · intro m2 hr2 hmem hfail hne
        simp only [List.mem_singleton, Ev.call.injEq] at hmem
        exact absurd hmem.1 hne
    · refine ⟨[Ev.call "IModalWindow::Show" env.showHr], by simp [hc, addEv], ?_, ?_⟩
      · simp [hc, showCancelEv, Ne.symm hc]
      · intro m2 hr2 hmem hfail hne
        simp only [List.mem_singleton, Ev.call.injEq] at hmem
        exact absurd hmem.1 hne
  · rw [com_run_ok _ hb]
    have hc : env.showHr ≠ hresultCancelled := by
      intro hc
      rw [hc, succeeded_cancel_false] at hb
      cases hb
    refine ⟨[Ev.call "IModalWindow::Show" env.showHr], by simp [addEv], ?_, ?_⟩
    · simp [showCancelEv, hc]
      exact fun he => hc he.symm
    · intro m2 hr2 hmem hfail hne
      simp only [List.mem_singleton, Ev.call.injEq] at hmem
      exact absurd hmem.1 hne

theorem comSeq_bind {α β : Type} {a : M α} {f : α → M β}
    (ha : ComSeq a) (hf : ∀ x, ComSeq (f x)) : ComSeq (a >>= f) := by
  intro s
  obtain ⟨ta, hta, hca, hsa⟩ := ha s
  rw [run_bind]
  rcases h : a s with ⟨r, s1⟩
  rw [h] at hta hca hsa
  rcases r with e | x
  · refine ⟨ta, hta, by simpa using hca, ?_⟩
    intro m hr hm hfail hne
    simpa using hsa m hr hm hfail hne
  · obtain ⟨tb, htb, hcb, hsb⟩ := hf x s1
    refine ⟨ta ++ tb, ?_, ?_, ?_⟩
    · simp only at hta
      rw [htb, hta, List.append_assoc]
    · rw [hcb]
      simp only [List.mem_append]
      constructor
      · intro hm
        exact Or.inr hm
      · rintro (hm | hm)
        · exact absurd (hca.mpr hm) (by simp)
        · exact hm
    · intro m hr hm hfail hne
      rcases List.mem_append.mp hm with hm | hm
      · exact absurd (hsa m hr hm hfail hne).1 (by simp)
      · obtain ⟨hres, t0, ht0⟩ := hsb m hr hm hfail hne
        exact ⟨hres, ta ++ t0, by rw [ht0, List.append_assoc]⟩

theorem comSeq_iteUnit {c : Prop} [Decidable c] {a : M Unit}
    (ha : ComSeq a) : ComSeq (if c then a else pure ()) := by
  by_cases h : c <;> simp [h, ha, comSeq_pure]

theorem comSeq_ite {α : Type} {c : Prop} [Decidable c] {a b : M α}
    (ha : ComSeq a) (hb : ComSeq b) : ComSeq (if c then a else b) := by
  by_cases h : c <;> simp [h, ha, hb]

theorem comSeq_cfgDefaultExtension (env : NativeEnv) (p : DialogParams) :
    ComSeq (cfgDefaultExtension env p) := by
  unfold cfgDefaultExtension
  exact comSeq_iteUnit (comSeq_com (by decide))

theorem comSeq_cfgDefaultFolder (env : NativeEnv) (p : DialogParams) :
    ComSeq (cfgDefaultFolder env p) := by
  unfold cfgDefaultFolder
  exact comSeq_iteUnit (comSeq_bind (comSeq_com (by decide)) (fun _ =>
    comSeq_bind (comSeq_emit_acquire _) (fun _ =>
      comSeq_bind (comSeq_com (by decide)) (fun _ => comSeq_emit_release _))))

theorem comSeq_cfgFolder (env : NativeEnv) (p : DialogParams) :
    ComSeq (cfgFolder env p) := by
  unfold cfgFolder
  exact comSeq_iteUnit (comSeq_bind (comSeq_com (by decide)) (fun _ =>
    comSeq_bind (comSeq_emit_acquire _) (fun _ =>
      comSeq_bind (comSeq_com (by decide)) (fun _ => comSeq_emit_release _))))

theorem comSeq_cfgFileName (env : NativeEnv) (p : DialogParams) :
    ComSeq (cfgFileName env p) := by
  unfold cfgFileName
  exact comSeq_iteUnit (comSeq_com (by decide))

theorem comSeq_cfgFileNameLabel (env : NativeEnv) (p : DialogParams) :
    ComSeq (cfgFileNameLabel env p) := by
  unfold cfgFileNameLabel
  exact comSeq_iteUnit (comSeq_com (by decide))

theorem comSeq_cfgFileTypes (env : NativeEnv) (p : DialogParams) :
    ComSeq (cfgFileTypes env p) := by
  unfold cfgFileTypes add_filters
  exact comSeq_iteUnit (comSeq_bind (comSeq_com (by decide)) (fun _ => comSeq_setDialog _))

theorem comSeq_cfgFileTypeIndex (env : NativeEnv) (p : DialogParams) :
    ComSeq (cfgFileTypeIndex env p) := by
  unfold cfgFileTypeIndex
  exact comSeq_iteUnit (comSeq_bind (comSeq_com (by decide)) (fun _ => comSeq_setDialog _))

theorem comSeq_cfgOkButtonLabel (env : NativeEnv) (p : DialogParams) :
    ComSeq (cfgOkButtonLabel env p) := by
  unfold cfgOkButtonLabel
  exact comSeq_iteUnit (comSeq_com (by decide))

theorem comSeq_cfgOptions (env : NativeEnv) (p : DialogParams) :
    ComSeq (cfgOptions env p) := by
  unfold cfgOptions
  exact comSeq_iteUnit (comSeq_bind (comSeq_com (by decide)) (fun _ =>
    comSeq_bind comSeq_getDialog (fun existing =>
      comSeq_bind (comSeq_com (by decide)) (fun _ => comSeq_setDialog _))))

theorem comSeq_cfgTitle (env : NativeEnv) (p : DialogParams) :
    ComSeq (cfgTitle env p) := by
  unfold cfgTitle
  exact comSeq_iteUnit (comSeq_com (by decide))

theorem comSeq_configure (env : NativeEnv) (p : DialogParams) :
    ComSeq (configure_file_dialog env p) := by
  unfold configure_file_dialog
  exact comSeq_bind (comSeq_cfgDefaultExtension env p) (fun _ =>
    comSeq_bind (comSeq_cfgDefaultFolder env p) (fun _ =>
      comSeq_bind (comSeq_cfgFolder env p) (fun _ =>
        comSeq_bind (comSeq_cfgFileName env p) (fun _ =>
          comSeq_bind (comSeq_cfgFileNameLabel env p) (fun _ =>
            comSeq_bind (comSeq_cfgFileTypes env p) (fun _ =>
              comSeq_bind (comSeq_cfgFileTypeIndex env p) (fun _ =>
                comSeq_bind (comSeq_cfgOkButtonLabel env p) (fun _ =>
                  comSeq_bind (comSeq_cfgOptions env p) (fun _ =>
                    comSeq_cfgTitle env p)))))))))

theorem comSeq_saveAsItemStep (env : NativeEnv) (p : DialogParams) :
    ComSeq (saveAsItemStep env p) := by
  unfold saveAsItemStep
  exact comSeq_iteUnit (comSeq_bind (comSeq_com (by decide)) (fun _ =>
    comSeq_bind (comSeq_emit_acquire _) (fun _ =>
      comSeq_bind (comSeq_com (by decide)) (fun _ => comSeq_emit_release _))))

theorem comSeq_get_shell_item_display_name (hr : Int) (name : String) :
    ComSeq (get_shell_item_display_name hr name) := by
  unfold get_shell_item_display_name
  exact comSeq_bind (comSeq_com (by decide)) (fun _ =>
    comSeq_bind (comSeq_emit_acquire _) (fun _ =>
      comSeq_bind (comSeq_emit_release _) (fun _ => comSeq_pure _)))

theorem comSeq_get_file_type_index (env : NativeEnv) :
    ComSeq (get_file_type_index env) := by
  unfold get_file_type_index
  exact comSeq_bind (comSeq_com (by decide)) (fun _ =>
    comSeq_bind comSeq_getDialog (fun d => comSeq_pure _))

theorem comSeq_open_item (env : NativeEnv) (i : Nat) :
    ComSeq (open_item env i) := by
  unfold open_item
  refine comSeq_bind (comSeq_com (by decide)) (fun _ =>
    comSeq_bind (comSeq_emit_acquire _) (fun _ =>
      comSeq_bind (comSeq_com (by decide)) (fun _ => comSeq_ite (comSeq_pure _) ?_)))
  exact comSeq_bind (comSeq_get_shell_item_display_name _ _) (fun file_name =>
    comSeq_bind (comSeq_emit_release _) (fun _ => comSeq_pure _))

theorem comSeq_open_items (env : NativeEnv) (n : Nat) :
    ComSeq (open_items env n) := by
  induction n with
  | zero => exact comSeq_pure _
  | succ n ih =>
      rw [open_items]
      refine comSeq_bind ih (fun prev => comSeq_bind (comSeq_open_item env n) (fun r => ?_))
      cases r with
      | some file_name => exact comSeq_pure _
      | none => exact comSeq_pure _

theorem comSeq_open_dialog (p : DialogParams) (env : NativeEnv) :
    ComSeq (open_dialog p env) := by
  unfold open_dialog
  refine comSeq_bind (comSeq_com (by decide)) (fun _ =>
    comSeq_bind (comSeq_emit_acquire _) (fun _ =>
      comSeq_bind (comSeq_com (by decide)) (fun _ =>
        comSeq_bind (comSeq_emit_acquire _) (fun _ =>
          comSeq_bind (comSeq_configure env p) (fun _ =>
            comSeq_bind (comSeq_show env p.owner) (fun _ =>
              comSeq_bind (comSeq_com (by decide)) (fun _ =>
                comSeq_bind (comSeq_emit_acquire _) (fun _ =>
                  comSeq_bind (comSeq_com (by decide)) (fun _ =>
                    comSeq_bind (comSeq_open_items env env.itemCount) (fun file_paths =>
                      comSeq_bind (comSeq_get_file_type_index env) (fun idx =>
                        comSeq_bind (comSeq_emit_release _) (fun _ => ?_))))))))))))
  cases file_paths with
  | cons x rest => exact comSeq_pure _
  | nil => exact comSeq_throwE (by intro h; cases h)

theorem comSeq_save_dialog (p : DialogParams) (env : NativeEnv) :
    ComSeq (save_dialog p env) := by
  unfold save_dialog
  exact comSeq_bind (comSeq_com (by decide)) (fun _ =>
    comSeq_bind (comSeq_emit_acquire _) (fun _ =>
      comSeq_bind (comSeq_com (by decide)) (fun _ =>
        comSeq_bind (comSeq_emit_acquire _) (fun _ =>
          comSeq_bind (comSeq_saveAsItemStep env p) (fun _ =>
            comSeq_bind (comSeq_configure env p) (fun _ =>
              comSeq_bind (comSeq_show env p.owner) (fun _ =>
                comSeq_bind (comSeq_com (by decide)) (fun _ =>
                  comSeq_bind (comSeq_emit_acquire _) (fun _ =>
                    comSeq_bind (comSeq_get_shell_item_display_name _ _) (fun file_name =>
                      comSeq_bind (comSeq_emit_release _) (fun _ =>
                        comSeq_bind (comSeq_get_file_type_index env) (fun idx =>
                          comSeq_bind (comSeq_emit_release _) (fun _ =>
                            comSeq_pure _)))))))))))))

/-- `ComSeq` specialized to a full session run from a fresh state: the
appended event list is the session trace itself. -/
theorem comSeq_run {α : Type} {a : M α} (h : ComSeq a) (env : NativeEnv) :
    ((a (initS env)).1 = Except.error DialogError.UserCancelled ↔
      showCancelEv ∈ (a (initS env)).2.trace) ∧
    (∀ m hr, Ev.call m hr ∈ (a (initS env)).2.trace → SUCCEEDED hr = false →
      m ≠ "IModalWindow::Show" →
      (a (initS env)).1 = Except.error (DialogError.HResultFailed m hr) ∧
      ∃ t0, (a (initS env)).2.trace = t0 ++ [Ev.call m hr]) := by
  obtain ⟨t, ht, hc, hs⟩ := h (initS env)
  have ht2 : (a (initS env)).2.trace = t := by
    rw [ht]
    simp [initS]
  rw [ht2]
  exact ⟨hc, hs⟩

/-! ### Success-path characterization -/

/-- All native calls the environment can serve return success HRESULTs. -/
structure EnvSucceeds (env : NativeEnv) : Prop where
  coInitializeEx : SUCCEEDED env.coInitializeEx = true
  coCreateInstance : SUCCEEDED env.coCreateInstance = true
  shCreateItem : ∀ path, SUCCEEDED (env.shCreateItem path) = true
  setSaveAsItem : SUCCEEDED env.setSaveAsItem = true
  setDefaultExtension : SUCCEEDED env.setDefaultExtension = true
  setDefaultFolder : SUCCEEDED env.setDefaultFolder = true
  setFolder : SUCCEEDED env.setFolder = true
  setFileName : SUCCEEDED env.setFileName = true
  setFileNameLabel : SUCCEEDED env.setFileNameLabel = true
  setFileTypes : SUCCEEDED env.setFileTypes = true
  setFileTypeIndex : SUCCEEDED env.setFileTypeIndex = true
  setOkButtonLabel : SUCCEEDED env.setOkButtonLabel = true
  getOptions : SUCCEEDED env.getOptions = true
  setOptions : SUCCEEDED env.setOptions = true
  setTitle : SUCCEEDED env.setTitle = true
  showHr : SUCCEEDED env.showHr = true
  getResults : SUCCEEDED env.getResults = true
  getCount : SUCCEEDED env.getCount = true
  getItemAt : ∀ i, SUCCEEDED (env.getItemAt i) = true
  getAttributes : ∀ i, SUCCEEDED (env.getAttributes i) = true
  getDisplayName : ∀ i, SUCCEEDED (env.getDisplayName i) = true
  getResult : SUCCEEDED env.getResult = true
  saveGetDisplayName : SUCCEEDED env.saveGetDisplayName = true
  getFileTypeIndex : SUCCEEDED env.getFileTypeIndex = true

/-- The event list `configure_file_dialog` produces when every native call
succeeds: one guarded chunk per configuration step, in source order. -/
def configureEvs (env : NativeEnv) (p : DialogParams) : List Ev :=
  (if p.default_extension ≠ "" then
    [Ev.call "IFileDialog::SetDefaultExtension" env.setDefaultExtension] else []) ++
  (if p.default_folder ≠ "" then
    [Ev.call "SHCreateItemFromParsingName" (env.shCreateItem p.default_folder),
     Ev.acquire Res.shellItem,
     Ev.call "IFileDialog::SetDefaultFolder" env.setDefaultFolder,
     Ev.release Res.shellItem] else []) ++
  (if p.folder ≠ "" then
    [Ev.call "SHCreateItemFromParsingName" (env.shCreateItem p.folder),
     Ev.acquire Res.shellItem,
     Ev.call "IFileDialog::SetFolder" env.setFolder,
     Ev.release Res.shellItem] else []) ++
  (if p.file_name ≠ "" then
    [Ev.call "IFileDialog::SetFileName" env.setFileName] else []) ++
  (if p.file_name_label ≠ "" then
    [Ev.call "IFileDialog::SetFileNameLabel" env.setFileNameLabel] else []) ++
  (if p.file_types ≠ [] then
    [Ev.call "IFileDialog::SetFileTypes" env.setFileTypes] else []) ++
  (if p.file_types ≠ [] ∧ p.file_type_index > 0 then
    [Ev.call "IFileDialog::SetFileTypeIndex" env.setFileTypeIndex] else []) ++
  (if p.ok_button_label ≠ "" then
    [Ev.call "IFileDialog::SetOkButtonLabel" env.setOkButtonLabel] else []) ++
  (if p.options > 0 then
    [Ev.call "IFileDialog::GetOptions" env.getOptions,
     Ev.call "IFileDialog::SetOptions" env.setOptions] else []) ++
  (if p.title ≠ "" then
    [Ev.call "IFileDialog::SetTitle" env.setTitle] else [])

/-- The dialog state after a fully successful `configure_file_dialog`. -/
def dialogAfterConfigure (p : DialogParams) (d : DialogState) : DialogState :=
  { options := if p.options > 0 then d.options ||| p.options else d.options
    fileTypeIndex :=
      if p.file_types ≠ [] ∧ p.file_type_index > 0 then p.file_type_index
      else d.fileTypeIndex
    fileTypes := if p.file_types ≠ [] then p.file_types else d.fileTypes }

/-- The configuration call sequence as the specification words it: each
setting applied only if its field is non-empty/non-zero, in exactly the
order default extension, default folder (resolved first), forced folder
(resolved first), file name, file-name label, filter list, filter index
(only with filters set and index > 0), OK-button label, option flags
(get then set), title. -/
def configureCallNames (p : DialogParams) : List String :=
  (if p.default_extension ≠ "" then ["IFileDialog::SetDefaultExtension"] else []) ++
  (if p.default_folder ≠ "" then
    ["SHCreateItemFromParsingName", "IFileDialog::SetDefaultFolder"] else []) ++
  (if p.folder ≠ "" then ["SHCreateItemFromParsingName", "IFileDialog::SetFolder"] else []) ++
  (if p.file_name ≠ "" then ["IFileDialog::SetFileName"] else []) ++
  (if p.file_name_label ≠ "" then ["IFileDialog::SetFileNameLabel"] else []) ++
  (if p.file_types ≠ [] then ["IFileDialog::SetFileTypes"] else []) ++
  (if p.file_types ≠ [] ∧ p.file_type_index > 0 then ["IFileDialog::SetFileTypeIndex"] else []) ++
  (if p.ok_button_label ≠ "" then ["IFileDialog::SetOkButtonLabel"] else []) ++
  (if p.options > 0 then ["IFileDialog::GetOptions", "IFileDialog::SetOptions"] else []) ++
  (if p.title ≠ "" then ["IFileDialog::SetTitle"] else [])

theorem cfgDefaultExtension_run {env : NativeEnv} {p : DialogParams}
    (h : SUCCEEDED env.setDefaultExtension = true) (s : SessionState) :
    cfgDefaultExtension env p s =
      (Except.ok (), ⟨s.dialog, s.trace ++
        (if p.default_extension ≠ "" then
          [Ev.call "IFileDialog::SetDefaultExtension" env.setDefaultExtension] else [])⟩) := by
  unfold cfgDefaultExtension
  by_cases hg : p.default_extension ≠ ""
  · rw [if_pos hg, if_pos hg, com_run_ok _ h]
    simp [addEv]
  · rw [if_neg hg, if_neg hg]
    simp [run_pure]

theorem cfgDefaultFolder_run {env : NativeEnv} {p : DialogParams}
    (h1 : SUCCEEDED (env.shCreateItem p.default_folder) = true)
    (h2 : SUCCEEDED env.setDefaultFolder = true) (s : SessionState) :
    cfgDefaultFolder env p s =
      (Except.ok (), ⟨s.dialog, s.trace ++
        (if p.default_folder ≠ "" then
          [Ev.call "SHCreateItemFromParsingName" (env.shCreateItem p.default_folder),
           Ev.acquire Res.shellItem,
           Ev.call "IFileDialog::SetDefaultFolder" env.setDefaultFolder,
           Ev.release Res.shellItem] else [])⟩) := by
  unfold cfgDefaultFolder
  by_cases hg : p.default_folder ≠ ""
  · rw [if_pos hg, if_pos hg]
    simp [run_bind, com_run_ok _ h1, com_run_ok _ h2, emit_run, addEv, List.append_assoc]
  · rw [if_neg hg, if_neg hg]
    simp [run_pure]

theorem cfgFolder_run {env : NativeEnv} {p : DialogParams}
    (h1 : SUCCEEDED (env.shCreateItem p.folder) = true)
    (h2 : SUCCEEDED env.setFolder = true) (s : SessionState) :
    cfgFolder env p s =
      (Except.ok (), ⟨s.dialog, s.trace ++
        (if p.folder ≠ "" then
          [Ev.call "SHCreateItemFromParsingName" (env.shCreateItem p.folder),
           Ev.acquire Res.shellItem,
           Ev.call "IFileDialog::SetFolder" env.setFolder,
           Ev.release Res.shellItem] else [])⟩) := by
  unfold cfgFolder
  by_cases hg : p.folder ≠ ""
  · rw [if_pos hg, if_pos hg]
    simp [run_bind, com_run_ok _ h1, com_run_ok _ h2, emit_run, addEv, List.append_assoc]
  · rw [if_neg hg, if_neg hg]
    simp [run_pure]

theorem cfgFileName_run {env : NativeEnv} {p : DialogParams}
    (h : SUCCEEDED env.setFileName = true) (s : SessionState) :
    cfgFileName env p s =
      (Except.ok (), ⟨s.dialog, s.trace ++
        (if p.file_name ≠ "" then
          [Ev.call "IFileDialog::SetFileName" env.setFileName] else [])⟩) := by
  unfold cfgFileName
  by_cases hg : p.file_name ≠ ""
  · rw [if_pos hg, if_pos hg, com_run_ok _ h]
    simp [addEv]
  · rw [if_neg hg, if_neg hg]
    simp [run_pure]

theorem cfgFileNameLabel_run {env : NativeEnv} {p : DialogParams}
    (h : SUCCEEDED env.setFileNameLabel = true) (s : SessionState) :
    cfgFileNameLabel env p s =
      (Except.ok (), ⟨s.dialog, s.trace ++
        (if p.file_name_label ≠ "" then
          [Ev.call "IFileDialog::SetFileNameLabel" env.setFileNameLabel] else [])⟩) := by
  unfold cfgFileNameLabel
  by_cases hg : p.file_name_label ≠ ""
  · rw [if_pos hg, if_pos hg, com_run_ok _ h]
    simp [addEv]
  · rw [if_neg hg, if_neg hg]
    simp [run_pure]

theorem cfgFileTypes_run {env : NativeEnv} {p : DialogParams}
    (h : SUCCEEDED env.setFileTypes = true) (s : SessionState) :
    cfgFileTypes env p s =
      (Except.ok (),
       ⟨if p.file_types ≠ [] then { s.dialog with fileTypes := p.file_types } else s.dialog,
        s.trace ++
        (if p.file_types ≠ [] then
          [Ev.call "IFileDialog::SetFileTypes" env.setFileTypes] else [])⟩) := by
  unfold cfgFileTypes add_filters
  by_cases hg : p.file_types ≠ []
  · rw [if_pos hg, if_pos hg, if_pos hg]
    simp [run_bind, com_run_ok _ h, setDialog_run, addEv]
  · rw [if_neg hg, if_neg hg, if_neg hg]
    simp [run_pure]

theorem cfgFileTypeIndex_run {env : NativeEnv} {p : DialogParams}
    (h : SUCCEEDED env.setFileTypeIndex = true) (s : SessionState) :
    cfgFileTypeIndex env p s =
      (Except.ok (),
       ⟨if p.file_types ≠ [] ∧ p.file_type_index > 0 then
          { s.dialog with fileTypeIndex := p.file_type_index } else s.dialog,
        s.trace ++
        (if p.file_types ≠ [] ∧ p.file_type_index > 0 then
          [Ev.call "IFileDialog::SetFileTypeIndex" env.setFileTypeIndex] else [])⟩) := by
  unfold cfgFileTypeIndex
  by_cases hg : p.file_types ≠ [] ∧ p.file_type_index > 0
  · rw [if_pos hg, if_pos hg, if_pos hg]
    simp [run_bind, com_run_ok _ h, setDialog_run, addEv]
  · rw [if_neg hg, if_neg hg, if_neg hg]
    simp [run_pure]

theorem cfgOkButtonLabel_run {env : NativeEnv} {p : DialogParams}
    (h : SUCCEEDED env.setOkButtonLabel = true) (s : SessionState) :
    cfgOkButtonLabel env p s =
      (Except.ok (), ⟨s.dialog, s.trace ++
        (if p.ok_button_label ≠ "" then
          [Ev.call "IFileDialog::SetOkButtonLabel" env.setOkButtonLabel] else [])⟩) := by
  unfold cfgOkButtonLabel
  by_cases hg : p.ok_button_label ≠ ""
  · rw [if_pos hg, if_pos hg, com_run_ok _ h]
    simp [addEv]
  · rw [if_neg hg, if_neg hg]
    simp [run_pure]

theorem cfgOptions_run {env : NativeEnv} {p : DialogParams}
    (h1 : SUCCEEDED env.getOptions = true)
    (h2 : SUCCEEDED env.setOptions = true) (s : SessionState) :
    cfgOptions env p s =
      (Except.ok (),
       ⟨if p.options > 0 then
          { s.dialog with options := s.dialog.options ||| p.options } else s.dialog,
        s.trace ++
        (if p.options > 0 then
          [Ev.call "IFileDialog::GetOptions" env.getOptions,
           Ev.call "IFileDialog::SetOptions" env.setOptions] else [])⟩) := by
  unfold cfgOptions
  by_cases hg : p.options > 0
  · rw [if_pos hg, if_pos hg, if_pos hg]
    simp [run_bind, com_run_ok _ h1, com_run_ok _ h2, getDialog_run, setDialog_run,
      addEv, List.append_assoc]
  · rw [if_neg hg, if_neg hg, if_neg hg]
    simp [run_pure]

theorem cfgTitle_run {env : NativeEnv} {p : DialogParams}
    (h : SUCCEEDED env.setTitle = true) (s : SessionState) :
    cfgTitle env p s =
      (Except.ok (), ⟨s.dialog, s.trace ++
        (if p.title ≠ "" then [Ev.call "IFileDialog::SetTitle" env.setTitle] else [])⟩) := by
  unfold cfgTitle
  by_cases hg : p.title ≠ ""
  · rw [if_pos hg, if_pos hg, com_run_ok _ h]
    simp [addEv]
  · rw [if_neg hg, if_neg hg]
    simp [run_pure]

/-- Full characterization of `configure_file_dialog` when every native call
succeeds: it succeeds, updates the dialog state as `dialogAfterConfigure`,
and appends exactly `configureEvs`. -/
theorem configure_run_ok {env : NativeEnv} (henv : EnvSucceeds env)
    (p : DialogParams) (s : SessionState) :
    configure_file_dialog env p s =
      (Except.ok (), ⟨dialogAfterConfigure p s.dialog, s.trace ++ configureEvs env p⟩) := by
  unfold configure_file_dialog
  simp only [run_bind, cfgDefaultExtension_run henv.setDefaultExtension,
    cfgDefaultFolder_run (henv.shCreateItem _) henv.setDefaultFolder,
    cfgFolder_run (henv.shCreateItem _) henv.setFolder,
    cfgFileName_run henv.setFileName,
    cfgFileNameLabel_run henv.setFileNameLabel,
    cfgFileTypes_run henv.setFileTypes,
    cfgFileTypeIndex_run henv.setFileTypeIndex,
    cfgOkButtonLabel_run henv.setOkButtonLabel,
    cfgOptions_run henv.getOptions henv.setOptions,
    cfgTitle_run henv.setTitle]
  by_cases g6 : p.file_types ≠ [] <;>
    by_cases g7 : p.file_type_index > 0 <;>
      by_cases g9 : p.options > 0 <;>
        simp [dialogAfterConfigure, configureEvs, g6, g7, g9, List.append_assoc]

theorem show_run_ok {env : NativeEnv} (owner : Option Unit)
    (h : SUCCEEDED env.showHr = true) (s : SessionState) :
    show_dialog env owner s =
      (Except.ok (),
       ⟨{ s.dialog with fileTypeIndex := env.userFileTypeIndex s.dialog.fileTypeIndex },
        s.trace ++ [Ev.call "IModalWindow::Show" env.showHr]⟩) := by
  rw [show_dialog, com_run_ok _ h]
  simp [addEv]

theorem get_file_type_index_run_ok {env : NativeEnv}
    (h : SUCCEEDED env.getFileTypeIndex = true) (s : SessionState) :
    get_file_type_index env s =
      (Except.ok s.dialog.fileTypeIndex,
       ⟨s.dialog, s.trace ++ [Ev.call "IFileDialog::GetFileTypeIndex" env.getFileTypeIndex]⟩) := by
  unfold get_file_type_index
  simp [run_bind, com_run_ok _ h, getDialog_run, run_pure, addEv]

theorem get_shell_item_display_name_run_ok {hr : Int} (name : String)
    (h : SUCCEEDED hr = true) (s : SessionState) :
    get_shell_item_display_name hr name s =
      (Except.ok name,
       ⟨s.dialog, s.trace ++
        [Ev.call "IShellItem::GetDisplayName" hr,
         Ev.acquire Res.nameBuffer, Ev.release Res.nameBuffer]⟩) := by
  unfold get_shell_item_display_name
  simp [run_bind, com_run_ok _ h, emit_run, run_pure, addEv, List.append_assoc]

theorem saveAsItemStep_run {env : NativeEnv} {p : DialogParams}
    (h1 : SUCCEEDED (env.shCreateItem p.save_as_item) = true)
    (h2 : SUCCEEDED env.setSaveAsItem = true) (s : SessionState) :
    saveAsItemStep env p s =
      (Except.ok (), ⟨s.dialog, s.trace ++
        (if p.save_as_item ≠ "" then
          [Ev.call "SHCreateItemFromParsingName" (env.shCreateItem p.save_as_item),
           Ev.acquire Res.shellItem,
           Ev.call "IFileDialog::SetSaveAsItem" env.setSaveAsItem,
           Ev.release Res.shellItem] else [])⟩) := by
  unfold saveAsItemStep
  by_cases hg : p.save_as_item ≠ ""
  · rw [if_pos hg, if_pos hg]
    simp [run_bind, com_run_ok _ h1, com_run_ok _ h2, emit_run, addEv, List.append_assoc]
  · rw [if_neg hg, if_neg hg]
    simp [run_pure]

/-- The file paths collected by the `open_dialog` item loop over items
`0 .. n-1` when every native call succeeds: display names of the
filesystem-backed items, in selection order. -/
def openLoopPaths (env : NativeEnv) : Nat → List String
  | 0 => []
  | Nat.succ n =>
      openLoopPaths env n ++
        (if env.itemAttribs n &&& SFGAO_FILESYSTEM = 0 then [] else [env.itemName n])

/-- The events of the `open_dialog` item loop over items `0 .. n-1` when
every native call succeeds. -/
def openLoopEvs (env : NativeEnv) : Nat → List Ev
  | 0 => []
  | Nat.succ n =>
      openLoopEvs env n ++
        ([Ev.call "IShellItemArray::GetItemAt" (env.getItemAt n),
          Ev.acquire Res.shellItem,
          Ev.call "IShellItem::GetAttributes" (env.getAttributes n)] ++
         (if env.itemAttribs n &&& SFGAO_FILESYSTEM = 0 then []
          else
            [Ev.call "IShellItem::GetDisplayName" (env.getDisplayName n),
             Ev.acquire Res.nameBuffer, Ev.release Res.nameBuffer,
             Ev.release Res.shellItem]))

theorem open_item_run_ok {env : NativeEnv} (i : Nat)
    (h1 : SUCCEEDED (env.getItemAt i) = true)
    (h2 : SUCCEEDED (env.getAttributes i) = true)
    (h3 : SUCCEEDED (env.getDisplayName i) = true) (s : SessionState) :
    open_item env i s =
      (Except.ok (if env.itemAttribs i &&& SFGAO_FILESYSTEM = 0 then none
                  else some (env.itemName i)),
       ⟨s.dialog, s.trace ++
        ([Ev.call "IShellItemArray::GetItemAt" (env.getItemAt i),
          Ev.acquire Res.shellItem,
          Ev.call "IShellItem::GetAttributes" (env.getAttributes i)] ++
         (if env.itemAttribs i &&& SFGAO_FILESYSTEM = 0 then []
          else
            [Ev.call "IShellItem::GetDisplayName" (env.getDisplayName i),
             Ev.acquire Res.nameBuffer, Ev.release Res.nameBuffer,
             Ev.release Res.shellItem]))⟩) := by
  unfold open_item
  by_cases hg : env.itemAttribs i &&& SFGAO_FILESYSTEM = 0
  · simp [run_bind, com_run_ok _ h1, com_run_ok _ h2, emit_run, hg, run_pure, addEv,
      List.append_assoc]
  · simp [run_bind, com_run_ok _ h1, com_run_ok _ h2,
      get_shell_item_display_name_run_ok _ h3, emit_run, hg, run_pure, addEv,
      List.append_assoc]

theorem open_items_run_ok {env : NativeEnv} (henv : EnvSucceeds env) (n : Nat)
    (s : SessionState) :
    open_items env n s =
      (Except.ok (openLoopPaths env n), ⟨s.dialog, s.trace ++ openLoopEvs env n⟩) := by
  induction n generalizing s with
  | zero => simp [open_items, run_pure, openLoopPaths, openLoopEvs]
  | succ n ih =>
      rw [open_items]
      simp only [run_bind, ih,
        open_item_run_ok n (henv.getItemAt n) (henv.getAttributes n) (henv.getDisplayName n)]
      by_cases hg : env.itemAttribs n &&& SFGAO_FILESYSTEM = 0 <;>
        simp [hg, run_pure, openLoopPaths, openLoopEvs, List.append_assoc]

/-- The dialog state at the end of a fully successful session: shared
configuration applied to the initial state, then the user-made dropdown
interaction applied to the file-type index at display time. -/
def okDialogState (env : NativeEnv) (p : DialogParams) : DialogState :=
  { dialogAfterConfigure p (DialogState.init env) with
      fileTypeIndex :=
        env.userFileTypeIndex (dialogAfterConfigure p (DialogState.init env)).fileTypeIndex }

/-- The full event trace of an `open_dialog` session in which every native
call succeeds. -/
def openOkEvs (env : NativeEnv) (p : DialogParams) : List Ev :=
  [Ev.call "CoInitializeEx" env.coInitializeEx,
   Ev.acquire Res.comEnv,
   Ev.call "CoCreateInstance - IFileOpenDialog" env.coCreateInstance,
   Ev.acquire Res.dialog] ++
  configureEvs env p ++
  [Ev.call "IModalWindow::Show" env.showHr,
   Ev.call "IFileOpenDialog::GetResults" env.getResults,
   Ev.acquire Res.itemArray,
   Ev.call "IShellItemArray::GetCount" env.getCount] ++
  openLoopEvs env env.itemCount ++
  [Ev.call "IFileDialog::GetFileTypeIndex" env.getFileTypeIndex,
   Ev.release Res.comEnv]

/-- Full characterization of `open_dialog` when every native call succeeds:
the trace is `openOkEvs`, the final dialog state is `okDialogState`, and the
result is built from the filesystem-backed paths — `UnsupportedFilepath`
when that list is empty. -/
theorem open_run_ok {env : NativeEnv} (henv : EnvSucceeds env) (p : DialogParams) :
    openRun p env =
      ((match openLoopPaths env env.itemCount with
        | [] => Except.error DialogError.UnsupportedFilepath
        | x :: rest =>
            Except.ok { selected_file_path := x
                        selected_file_paths := x :: rest
                        selected_file_type_index := (okDialogState env p).fileTypeIndex }),
       ⟨okDialogState env p, openOkEvs env p⟩) := by
  unfold openRun open_dialog
  simp only [run_bind, com_run_ok _ henv.coInitializeEx, com_run_ok _ henv.coCreateInstance,
    com_run_ok _ henv.getResults, com_run_ok _ henv.getCount, emit_run,
    configure_run_ok henv, show_run_ok p.owner henv.showHr,
    open_items_run_ok henv, get_file_type_index_run_ok henv.getFileTypeIndex]
  rcases hp : openLoopPaths env env.itemCount with _ | ⟨x, rest⟩ <;>
    simp [hp, run_pure, throwE_run, okDialogState, openOkEvs, addEv, initS,
      List.append_assoc]

/-- The full event trace of a `save_dialog` session in which every native
call succeeds. -/
def saveOkEvs (env : NativeEnv) (p : DialogParams) : List Ev :=
  [Ev.call "CoInitializeEx" env.coInitializeEx,
   Ev.acquire Res.comEnv,
   Ev.call "CoCreateInstance - FileSaveDialog" env.coCreateInstance,
   Ev.acquire Res.dialog] ++
  (if p.save_as_item ≠ "" then
    [Ev.call "SHCreateItemFromParsingName" (env.shCreateItem p.save_as_item),
     Ev.acquire Res.shellItem,
     Ev.call "IFileDialog::SetSaveAsItem" env.setSaveAsItem,
     Ev.release Res.shellItem] else []) ++
  configureEvs env p ++
  [Ev.call "IModalWindow::Show" env.showHr,
   Ev.call "IFileDialog::GetResult" env.getResult,
   Ev.acquire Res.shellItem,
   Ev.call "IShellItem::GetDisplayName" env.saveGetDisplayName,
   Ev.acquire Res.nameBuffer, Ev.release Res.nameBuffer,
   Ev.release Res.shellItem,
   Ev.call "IFileDialog::GetFileTypeIndex" env.getFileTypeIndex,
   Ev.release Res.comEnv]

/-- Full characterization of `save_dialog` when every native call succeeds. -/
theorem save_run_ok {env : NativeEnv} (henv : EnvSucceeds env) (p : DialogParams) :
    saveRun p env =
      (Except.ok { selected_file_path := env.saveItemName
                   selected_filter_index := (okDialogState env p).fileTypeIndex },
       ⟨okDialogState env p, saveOkEvs env p⟩) := by
  unfold saveRun save_dialog
  simp only [run_bind, com_run_ok _ henv.coInitializeEx, com_run_ok _ henv.coCreateInstance,
    com_run_ok _ henv.getResult, emit_run,
    saveAsItemStep_run (henv.shCreateItem _) henv.setSaveAsItem,
    configure_run_ok henv, show_run_ok p.owner henv.showHr,
    get_shell_item_display_name_run_ok _ henv.saveGetDisplayName,
    get_file_type_index_run_ok henv.getFileTypeIndex]
  simp [run_pure, okDialogState, saveOkEvs, addEv, initS, List.append_assoc]

/-! ### Derived helpers -/

/-- The methods `configure_file_dialog` calls on a fully successful run are
exactly the ordered, guarded list the specification describes. -/
theorem callNames_configureEvs (env : NativeEnv) (p : DialogParams) :
    callNames (configureEvs env p) = configureCallNames p := by
  unfold configureEvs configureCallNames callNames
  simp only [List.filterMap_append, apply_ite (List.filterMap Ev.methodOf)]
  simp [Ev.methodOf]

theorem nat_lor_self (a : Nat) : a ||| a = a :=
  Nat.eq_of_testBit_eq (fun i => by simp [Nat.testBit_lor])

theorem nat_lor_absorb (a b : Nat) : a ||| (a ||| b) = a ||| b := by
  rw [← Nat.lor_assoc, nat_lor_self]

/-- Post-condition transport along the monad: the final result of a bind is
produced by the continuation. -/
def OkImplies {α : Type} (P : α → Prop) (a : M α) : Prop :=
  ∀ s r, (a s).1 = Except.ok r → P r

theorem okImplies_bind {α β : Type} {P : β → Prop} {a : M α} {f : α → M β}
    (hf : ∀ x, OkImplies P (f x)) : OkImplies P (a >>= f) := by
  intro s r h
  rw [run_bind] at h
  rcases ha : a s with ⟨ra, s1⟩
  rw [ha] at h
  rcases ra with e | x
  · simp at h
  · exact hf x s1 r h

/-- Any successful `open_dialog` result has a non-empty path list whose
head is the convenience `selected_file_path`. -/
theorem open_okImplies (p : DialogParams) (env : NativeEnv) :
    OkImplies
      (fun r => r.selected_file_paths ≠ [] ∧
        r.selected_file_paths.head? = some r.selected_file_path)
      (open_dialog p env) := by
  unfold open_dialog
  apply okImplies_bind; intro u1
  apply okImplies_bind; intro u2
  apply okImplies_bind; intro u3
  apply okImplies_bind; intro u4
  apply okImplies_bind; intro u5
  apply okImplies_bind; intro u6
  apply okImplies_bind; intro u7
  apply okImplies_bind; intro u8
  apply okImplies_bind; intro u9
  apply okImplies_bind; intro file_paths
  apply okImplies_bind; intro idx
  apply okImplies_bind; intro u10
  cases file_paths with
  | nil =>
      intro s r h
      simp [throwE_run] at h
  | cons x rest =>
      intro s r h
      simp only [run_pure] at h
      have hr : ({ selected_file_path := x
                   selected_file_paths := x :: rest
                   selected_file_type_index := idx } : OpenDialogResult) = r := by
        simpa using h
      rw [← hr]
      simp

/-- If no item up to `n` is filesystem-backed, the loop collects nothing. -/
theorem openLoopPaths_nil {env : NativeEnv} (n : Nat)
    (h : ∀ i, i < n → env.itemAttribs i &&& SFGAO_FILESYSTEM = 0) :
    openLoopPaths env n = [] := by
  induction n with
  | zero => rfl
  | succ n ih =>
      rw [openLoopPaths]
      rw [ih (fun i hi => h i (Nat.lt_trans hi (Nat.lt_succ_self n))),
        if_pos (h n (Nat.lt_succ_self n))]
      rfl

/-- A fake native layer in which every call succeeds, one selected item is
filesystem-backed, and the user confirms the dialog without touching the
file-type dropdown. -/
def allOkEnv : NativeEnv :=
  { coInitializeEx := 0
    coCreateInstance := 0
    shCreateItem := fun _ => 0
    setSaveAsItem := 0
    setDefaultExtension := 0
    setDefaultFolder := 0
    setFolder := 0
    setFileName := 0
    setFileNameLabel := 0
    setFileTypes := 0
    setFileTypeIndex := 0
    setOkButtonLabel := 0
    getOptions := 0
    setOptions := 0
    setTitle := 0
    showHr := 0
    getResults := 0
    getCount := 0
    itemCount := 1
    getItemAt := fun _ => 0
    getAttributes := fun _ => 0
    itemAttribs := fun _ => SFGAO_FILESYSTEM
    getDisplayName := fun _ => 0
    itemName := fun _ => "C:/file.txt"
    getResult := 0
    saveGetDisplayName := 0
    saveItemName := "C:/save.txt"
    getFileTypeIndex := 0
    initOptions := 0
    initFileTypeIndex := 1
    initFileTypes := []
    userFileTypeIndex := fun i => i }

theorem allOkEnv_succeeds : EnvSucceeds allOkEnv := by
  constructor <;> intros <;> rfl

/-- `allOkEnv` with no filesystem-backed item. -/
def noFsEnv : NativeEnv := { allOkEnv with itemAttribs := fun _ => 0 }

theorem noFsEnv_succeeds : EnvSucceeds noFsEnv := by
  constructor <;> intros <;> rfl

/-- `allOkEnv` with pre-existing native default option flags set. -/
def optsEnv : NativeEnv := { allOkEnv with initOptions := 6 }

theorem optsEnv_succeeds : EnvSucceeds optsEnv := by
  constructor <;> intros <;> rfl

/-- `allOkEnv` with the display step reporting the native user-cancel code. -/
def cancelEnv : NativeEnv := { allOkEnv with showHr := hresultCancelled }

/-! ### Claims -/

/-- C1: the claim says every native acquisition is matched by exactly one
release on every exit path, so acquire count = release count. The code
violates this: on a fully successful open session with one
filesystem-backed item it makes 5 acquisitions (COM environment, dialog
instance, item array, per-item shell item, display-name buffer) but only 3
releases — the dialog instance and the `IShellItemArray` are never
released. On the user-cancel path even `CoUninitialize` is skipped (2
acquisitions, 0 releases), because every early `?`-return bypasses it. -/
theorem claim_C1_leak :
    openResult DialogParams.default allOkEnv =
      Except.ok { selected_file_path := "C:/file.txt"
                  selected_file_paths := ["C:/file.txt"]
                  selected_file_type_index := 1 } ∧
    acquireCount (openTrace DialogParams.default allOkEnv) = 5 ∧
    releaseCount (openTrace DialogParams.default allOkEnv) = 3 ∧
    openResult DialogParams.default cancelEnv =
      Except.error DialogError.UserCancelled ∧
    acquireCount (openTrace DialogParams.default cancelEnv) = 2 ∧
    releaseCount (openTrace DialogParams.default cancelEnv) = 0 := by
  refine ⟨by decide, by decide, by decide, by decide, by decide, by decide⟩

/-- C2: `open_dialog` and `save_dialog` return `UserCancelled` exactly when
the `IModalWindow::Show` call returned the native cancel code
`0x800704C7` (as an `i32`), and a configuration step returning any code —
including that one — is never translated to `UserCancelled`. -/
theorem claim_C2_cancel_iff : ∀ (p : DialogParams) (env : NativeEnv),
    (openResult p env = Except.error DialogError.UserCancelled ↔
      Ev.call "IModalWindow::Show" hresultCancelled ∈ openTrace p env) ∧
    (saveResult p env = Except.error DialogError.UserCancelled ↔
      Ev.call "IModalWindow::Show" hresultCancelled ∈ saveTrace p env) ∧
    (∀ s, (configure_file_dialog env p s).1 ≠ Except.error DialogError.UserCancelled) := by
  intro p env
  refine ⟨?_, ?_, ?_⟩
  · exact (comSeq_run (comSeq_open_dialog p env) env).1
  · exact (comSeq_run (comSeq_save_dialog p env) env).1
  · exact configure_neverErr_cancelled env p

/-- C2 witness: a concrete cancelled session. -/
theorem claim_C2_cancel_iff_witness :
    openResult DialogParams.default cancelEnv = Except.error DialogError.UserCancelled :=
  (claim_C2_cancel_iff DialogParams.default cancelEnv).1.mpr (by decide)

/-- C3: a failing native call other than the display step makes the session
result `HResultFailed` with exactly the name and status code of that call, and
that call is the last event of the session trace — nothing runs after it. -/
theorem claim_C3_short_circuit : ∀ (p : DialogParams) (env : NativeEnv)
    (m : String) (hr : Int),
    SUCCEEDED hr = false → m ≠ "IModalWindow::Show" →
    (Ev.call m hr ∈ openTrace p env →
      openResult p env = Except.error (DialogError.HResultFailed m hr) ∧
      ∃ t0, openTrace p env = t0 ++ [Ev.call m hr]) ∧
    (Ev.call m hr ∈ saveTrace p env →
      saveResult p env = Except.error (DialogError.HResultFailed m hr) ∧
      ∃ t0, saveTrace p env = t0 ++ [Ev.call m hr]) := by
  intro p env m hr hfail hne
  constructor
  · intro hmem
    exact (comSeq_run (comSeq_open_dialog p env) env).2 m hr hmem hfail hne
  · intro hmem
    exact (comSeq_run (comSeq_save_dialog p env) env).2 m hr hmem hfail hne

/-- `allOkEnv` with a failing `IFileDialog::SetTitle`. -/
def failTitleEnv : NativeEnv := { allOkEnv with setTitle := -1 }

/-- Params requesting a title, so the `SetTitle` step runs. -/
def titleParams : DialogParams := { DialogParams.default with title := "T" }

/-- C3 witness: a concrete session where the `SetTitle` configuration step
fails with code `-1` and the session aborts with exactly that error. -/
theorem claim_C3_short_circuit_witness :
    (SUCCEEDED (-1) = false ∧ "IFileDialog::SetTitle" ≠ "IModalWindow::Show" ∧
      Ev.call "IFileDialog::SetTitle" (-1) ∈ openTrace titleParams failTitleEnv) ∧
    openResult titleParams failTitleEnv =
      Except.error (DialogError.HResultFailed "IFileDialog::SetTitle" (-1)) :=
  ⟨⟨by decide, by decide, by decide⟩,
   ((claim_C3_short_circuit titleParams failTitleEnv "IFileDialog::SetTitle" (-1)
      (by decide) (by decide)).1 (by decide)).1⟩

/-- C10: `save_dialog` can never return `UnsupportedFilepath`: for every
input and native behavior its result is a success, `UserCancelled`, or
`HResultFailed`. -/
theorem claim_C10_save_no_unsupported : ∀ (p : DialogParams) (env : NativeEnv),
    (∃ r, saveResult p env = Except.ok r) ∨
    saveResult p env = Except.error DialogError.UserCancelled ∨
    (∃ m hr, saveResult p env = Except.error (DialogError.HResultFailed m hr)) := by
  intro p env
  rcases h : saveResult p env with e | r
  · cases e with
    | UserCancelled => exact Or.inr (Or.inl rfl)
    | UnsupportedFilepath => exact absurd h (save_neverErr_unsupported p env (initS env))
    | HResultFailed m hr => exact Or.inr (Or.inr ⟨m, hr, rfl⟩)
  · exact Or.inl ⟨r, rfl⟩

/-- C4: a successful open result always has a non-empty path list headed by
`selected_file_path`; and in a session where the native layer succeeds but
no returned item is filesystem-backed (or no items were returned at all),
`open_dialog` returns `UnsupportedFilepath`, never an empty success. -/
theorem claim_C4_unsupported : ∀ (p : DialogParams) (env : NativeEnv),
    (∀ r, openResult p env = Except.ok r →
      r.selected_file_paths ≠ [] ∧
      r.selected_file_paths.head? = some r.selected_file_path) ∧
    (EnvSucceeds env →
      (∀ i, i < env.itemCount → env.itemAttribs i &&& SFGAO_FILESYSTEM = 0) →
      openResult p env = Except.error DialogError.UnsupportedFilepath) := by
  intro p env
  constructor
  · intro r h
    exact open_okImplies p env (initS env) r h
  · intro henv hattr
    have h := open_run_ok henv p
    unfold openResult
    rw [h]
    rw [openLoopPaths_nil env.itemCount hattr]

/-- C4 witness: a concrete succeeding session whose only item is not
filesystem-backed yields `UnsupportedFilepath`. -/
theorem claim_C4_unsupported_witness :
    (EnvSucceeds noFsEnv ∧
      (∀ i, i < noFsEnv.itemCount → noFsEnv.itemAttribs i &&& SFGAO_FILESYSTEM = 0)) ∧
    openResult DialogParams.default noFsEnv =
      Except.error DialogError.UnsupportedFilepath :=
  ⟨⟨noFsEnv_succeeds, fun i _ => by simp [noFsEnv, allOkEnv]⟩,
   (claim_C4_unsupported DialogParams.default noFsEnv).2 noFsEnv_succeeds
     (fun i _ => by simp [noFsEnv, allOkEnv])⟩

theorem cfgDefaultFolder_run_fail1 {env : NativeEnv} {p : DialogParams}
    (hg : p.default_folder ≠ "")
    (h1 : SUCCEEDED (env.shCreateItem p.default_folder) = false) (s : SessionState) :
    cfgDefaultFolder env p s =
      (Except.error (DialogError.HResultFailed "SHCreateItemFromParsingName"
        (env.shCreateItem p.default_folder)),
       addEv s (Ev.call "SHCreateItemFromParsingName" (env.shCreateItem p.default_folder))) := by
  unfold cfgDefaultFolder
  rw [if_pos hg]
  exact bind_err (com_run_fail _ h1)

/-- C5: shared configuration applies each setting only when its field is
non-empty/non-zero, in exactly the source order (captured by
`configureCallNames`); and a failure to resolve the default folder is an
`HResultFailed` error naming `SHCreateItemFromParsingName`, never a silent
skip. -/
theorem claim_C5_config_order :
    (∀ (p : DialogParams) (env : NativeEnv), EnvSucceeds env →
      callNames (configureTrace env p) = configureCallNames p) ∧
    (∀ (p : DialogParams) (env : NativeEnv),
      p.default_folder ≠ "" →
      SUCCEEDED (env.shCreateItem p.default_folder) = false →
      SUCCEEDED env.setDefaultExtension = true →
      (configureRun env p).1 =
        Except.error (DialogError.HResultFailed "SHCreateItemFromParsingName"
          (env.shCreateItem p.default_folder))) := by
  constructor
  · intro p env henv
    unfold configureTrace configureRun
    rw [configure_run_ok henv]
    simp [initS, callNames_configureEvs]
  · intro p env hg h1 hext
    unfold configureRun configure_file_dialog
    rw [bind_ok (cfgDefaultExtension_run hext _)]
    rw [bind_err (cfgDefaultFolder_run_fail1 hg h1 _)]

/-- Params exercising every configuration field. -/
def pAll : DialogParams :=
  { default_extension := "txt"
    default_folder := "C:/dd"
    file_name := "f"
    file_name_label := "lbl"
    file_type_index := 2
    file_types := [("A", "*.a"), ("B", "*.b")]
    folder := "C:/ff"
    ok_button_label := "Go"
    options := 3
    owner := none
    save_as_item := "C:/s.txt"
    title := "T" }

/-- Params with a default folder set. -/
def pFolder : DialogParams := { DialogParams.default with default_folder := "C:/dir" }

/-- `allOkEnv` with item resolution failing. -/
def folderFailEnv : NativeEnv := { allOkEnv with shCreateItem := fun _ => -3 }

/-- C5 witness: concrete instances of both parts. -/
theorem claim_C5_config_order_witness :
    (EnvSucceeds allOkEnv ∧
      callNames (configureTrace allOkEnv pAll) = configureCallNames pAll) ∧
    ((pFolder.default_folder ≠ "" ∧
      SUCCEEDED (folderFailEnv.shCreateItem pFolder.default_folder) = false ∧
      SUCCEEDED folderFailEnv.setDefaultExtension = true) ∧
     (configureRun folderFailEnv pFolder).1 =
       Except.error (DialogError.HResultFailed "SHCreateItemFromParsingName" (-3))) :=
  ⟨⟨allOkEnv_succeeds, claim_C5_config_order.1 pAll allOkEnv allOkEnv_succeeds⟩,
   ⟨⟨by decide, by decide, by decide⟩,
    claim_C5_config_order.2 pFolder folderFailEnv (by decide) (by decide) (by decide)⟩⟩

/-- C6: with non-zero requested option flags, configuration reads the
existing flags of the dialog and sets the bitwise OR of existing and requested
(read strictly before write in the trace); the resulting option set is a
superset of the pre-existing defaults. -/
theorem claim_C6_options_or : ∀ (p : DialogParams) (env : NativeEnv),
    EnvSucceeds env → 0 < p.options →
    (openDialogState p env).options = env.initOptions ||| p.options ∧
    env.initOptions ||| (openDialogState p env).options = (openDialogState p env).options ∧
    ∃ t1 t2, openTrace p env =
      t1 ++ Ev.call "IFileDialog::GetOptions" env.getOptions ::
        Ev.call "IFileDialog::SetOptions" env.setOptions :: t2 := by
  intro p env henv hopt
  have h := open_run_ok henv p
  have hst : openDialogState p env = okDialogState env p :=
    congrArg (fun x => x.2.dialog) h
  have htr : openTrace p env = openOkEvs env p :=
    congrArg (fun x => x.2.trace) h
  refine ⟨?_, ?_, ?_⟩
  · rw [hst]
    unfold okDialogState dialogAfterConfigure DialogState.init
    simp [hopt]
  · rw [hst]
    unfold okDialogState dialogAfterConfigure DialogState.init
    simp [hopt, nat_lor_absorb]
  · rw [htr]
    unfold openOkEvs configureEvs
    rw [if_pos hopt]
    refine ⟨[Ev.call "CoInitializeEx" env.coInitializeEx,
      Ev.acquire Res.comEnv,
      Ev.call "CoCreateInstance - IFileOpenDialog" env.coCreateInstance,
      Ev.acquire Res.dialog] ++
      ((if p.default_extension ≠ "" then
        [Ev.call "IFileDialog::SetDefaultExtension" env.setDefaultExtension] else []) ++
       (if p.default_folder ≠ "" then
        [Ev.call "SHCreateItemFromParsingName" (env.shCreateItem p.default_folder),
         Ev.acquire Res.shellItem,
         Ev.call "IFileDialog::SetDefaultFolder" env.setDefaultFolder,
         Ev.release Res.shellItem] else []) ++
       (if p.folder ≠ "" then
        [Ev.call "SHCreateItemFromParsingName" (env.shCreateItem p.folder),
         Ev.acquire Res.shellItem,
         Ev.call "IFileDialog::SetFolder" env.setFolder,
         Ev.release Res.shellItem] else []) ++
       (if p.file_name ≠ "" then
        [Ev.call "IFileDialog::SetFileName" env.setFileName] else []) ++
       (if p.file_name_label ≠ "" then
        [Ev.call "IFileDialog::SetFileNameLabel" env.setFileNameLabel] else []) ++
       (if p.file_types ≠ [] then
        [Ev.call "IFileDialog::SetFileTypes" env.setFileTypes] else []) ++
       (if p.file_types ≠ [] ∧ p.file_type_index > 0 then
        [Ev.call "IFileDialog::SetFileTypeIndex" env.setFileTypeIndex] else []) ++
       (if p.ok_button_label ≠ "" then
        [Ev.call "IFileDialog::SetOkButtonLabel" env.setOkButtonLabel] else [])),
      (if p.title ≠ "" then [Ev.call "IFileDialog::SetTitle" env.setTitle] else []) ++
      ([Ev.call "IModalWindow::Show" env.showHr,
        Ev.call "IFileOpenDialog::GetResults" env.getResults,
        Ev.acquire Res.itemArray,
        Ev.call "IShellItemArray::GetCount" env.getCount] ++
       openLoopEvs env env.itemCount ++
       [Ev.call "IFileDialog::GetFileTypeIndex" env.getFileTypeIndex,
        Ev.release Res.comEnv]), ?_⟩
    simp [List.append_assoc]

/-- Params requesting option flags. -/
def pOpts : DialogParams := { DialogParams.default with options := 9 }

/-- C6 witness: pre-existing flags `6` OR requested flags `9` gives `15`. -/
theorem claim_C6_options_or_witness :
    (EnvSucceeds optsEnv ∧ 0 < pOpts.options) ∧
    ((openDialogState pOpts optsEnv).options = optsEnv.initOptions ||| pOpts.options ∧
     optsEnv.initOptions ||| (openDialogState pOpts optsEnv).options =
       (openDialogState pOpts optsEnv).options ∧
     ∃ t1 t2, openTrace pOpts optsEnv =
       t1 ++ Ev.call "IFileDialog::GetOptions" optsEnv.getOptions ::
         Ev.call "IFileDialog::SetOptions" optsEnv.setOptions :: t2) :=
  ⟨⟨optsEnv_succeeds, by decide⟩,
   claim_C6_options_or pOpts optsEnv optsEnv_succeeds (by decide)⟩

/-- With an empty filter list neither `SetFileTypes` nor `SetFileTypeIndex`
appears among the configuration calls. -/
theorem setFileTypes_not_mem_configure (p : DialogParams) (h6 : p.file_types = []) :
    "IFileDialog::SetFileTypes" ∉ configureCallNames p ∧
    "IFileDialog::SetFileTypeIndex" ∉ configureCallNames p := by
  constructor <;>
  · intro hmem
    unfold configureCallNames at hmem
    simp only [List.mem_append, or_assoc] at hmem
    rcases hmem with h | h | h | h | h | h | h | h | h | h <;>
      revert h <;> split <;> simp_all

theorem getAttributes_not_mem_configure (p : DialogParams) :
    "IShellItem::GetAttributes" ∉ configureCallNames p := by
  intro hmem
  unfold configureCallNames at hmem
  simp only [List.mem_append, or_assoc] at hmem
  rcases hmem with h | h | h | h | h | h | h | h | h | h <;>
    revert h <;> split <;> simp_all

theorem getResult_not_mem_configure (p : DialogParams) :
    "IFileDialog::GetResult" ∉ configureCallNames p := by
  intro hmem
  unfold configureCallNames at hmem
  simp only [List.mem_append, or_assoc] at hmem
  rcases hmem with h | h | h | h | h | h | h | h | h | h <;>
    revert h <;> split <;> simp_all

/-- Params with an explicitly empty filter list. -/
def emptyTypesParams : DialogParams := { DialogParams.default with file_types := [] }

/-- `allOkEnv` with native default file-type index 0. -/
def zeroIdxEnv : NativeEnv := { allOkEnv with initFileTypeIndex := 0 }

/-- C7 counterexample: with an explicitly empty filter list no catch-all
filter is applied (no `SetFileTypes` call, dialog filter list unchanged)
and no filter index is set (no `SetFileTypeIndex` call; the session
succeeds with active index 0, not 1) — refuting "for every configuration
whose filter list is empty, the default catch-all filter is applied and
the selected-filter-index defaults to 1". -/
theorem claim_C7_cex :
    emptyTypesParams.file_types = [] ∧
    openResult emptyTypesParams zeroIdxEnv =
      Except.ok { selected_file_path := "C:/file.txt"
                  selected_file_paths := ["C:/file.txt"]
                  selected_file_type_index := 0 } ∧
    (openDialogState emptyTypesParams zeroIdxEnv).fileTypes ≠
      [("All types (*.*)", "*.*")] ∧
    (openDialogState emptyTypesParams zeroIdxEnv).fileTypeIndex ≠ 1 ∧
    "IFileDialog::SetFileTypes" ∉ callNames (openTrace emptyTypesParams zeroIdxEnv) ∧
    "IFileDialog::SetFileTypeIndex" ∉ callNames (openTrace emptyTypesParams zeroIdxEnv) := by
  refine ⟨by decide, by decide, by decide, by decide, by decide, by decide⟩

/-- C7 (amended): the *defaulted* configuration carries the single
catch-all filter pair and index 1, and a successful session applies them
to the dialog; but a configuration whose filter list is explicitly empty
applies no filter and sets no filter index at all. -/
theorem claim_C7_default_filter :
    DialogParams.default.file_types = [("All types (*.*)", "*.*")] ∧
    DialogParams.default.file_type_index = 1 ∧
    (∀ env, EnvSucceeds env →
      (openDialogState DialogParams.default env).fileTypes =
        [("All types (*.*)", "*.*")] ∧
      (openDialogState DialogParams.default env).fileTypeIndex =
        env.userFileTypeIndex 1) ∧
    (∀ (p : DialogParams) (env : NativeEnv), p.file_types = [] → EnvSucceeds env →
      "IFileDialog::SetFileTypes" ∉ callNames (configureTrace env p) ∧
      "IFileDialog::SetFileTypeIndex" ∉ callNames (configureTrace env p)) := by
  refine ⟨rfl, rfl, ?_, ?_⟩
  · intro env henv
    have hst : openDialogState DialogParams.default env = okDialogState env DialogParams.default :=
      congrArg (fun x => x.2.dialog) (open_run_ok henv DialogParams.default)
    rw [hst]
    unfold okDialogState dialogAfterConfigure DialogState.init
    constructor <;> simp [DialogParams.default]
  · intro p env h6 henv
    have hcn : callNames (configureTrace env p) = configureCallNames p := by
      unfold configureTrace configureRun
      rw [configure_run_ok henv]
      simp [initS, callNames_configureEvs]
    rw [hcn]
    exact setFileTypes_not_mem_configure p h6

/-- C7 witness for the amended statement. -/
theorem claim_C7_default_filter_witness :
    (EnvSucceeds allOkEnv ∧ emptyTypesParams.file_types = []) ∧
    ((openDialogState DialogParams.default allOkEnv).fileTypes =
       [("All types (*.*)", "*.*")] ∧
     (openDialogState DialogParams.default allOkEnv).fileTypeIndex =
       allOkEnv.userFileTypeIndex 1) ∧
    ("IFileDialog::SetFileTypes" ∉ callNames (configureTrace allOkEnv emptyTypesParams) ∧
     "IFileDialog::SetFileTypeIndex" ∉ callNames (configureTrace allOkEnv emptyTypesParams)) :=
  ⟨⟨allOkEnv_succeeds, rfl⟩,
   claim_C7_default_filter.2.2.1 allOkEnv allOkEnv_succeeds,
   claim_C7_default_filter.2.2.2 emptyTypesParams allOkEnv rfl allOkEnv_succeeds⟩

/-- C8: filter-index round-trip — with N filters configured and default
index K (1 ≤ K ≤ N), a session the user confirms without touching the
file-type dropdown reports active filter index exactly K. -/
theorem claim_C8_filter_round_trip : ∀ (p : DialogParams) (env : NativeEnv) (N K : Nat),
    EnvSucceeds env → p.file_types.length = N → p.file_type_index = K →
    1 ≤ K → K ≤ N → (∀ i, env.userFileTypeIndex i = i) →
    saveResult p env =
      Except.ok { selected_file_path := env.saveItemName, selected_filter_index := K } ∧
    (∀ r, openResult p env = Except.ok r → r.selected_file_type_index = K) := by
  intro p env N K henv hN hK h1 hKN huser
  have hft : p.file_types ≠ [] := by
    intro hnil
    rw [hnil] at hN
    simp at hN
    omega
  have hK0 : 0 < K := h1
  have hidx : (okDialogState env p).fileTypeIndex = K := by
    unfold okDialogState dialogAfterConfigure DialogState.init
    simp [hft, hK, huser, hK0]
  constructor
  · have hres : saveResult p env =
        Except.ok { selected_file_path := env.saveItemName
                    selected_filter_index := (okDialogState env p).fileTypeIndex } :=
      congrArg Prod.fst (save_run_ok henv p)
    rw [hres, hidx]
  · intro r hr
    have hres : openResult p env =
        (match openLoopPaths env env.itemCount with
         | [] => Except.error DialogError.UnsupportedFilepath
         | x :: rest =>
             Except.ok { selected_file_path := x
                         selected_file_paths := x :: rest
                         selected_file_type_index := (okDialogState env p).fileTypeIndex }) :=
      congrArg Prod.fst (open_run_ok henv p)
    rw [hres] at hr
    rcases hp : openLoopPaths env env.itemCount with _ | ⟨x, rest⟩
    · rw [hp] at hr
      simp at hr
    · rw [hp] at hr
      simp only [Except.ok.injEq] at hr
      rw [← hr, ← hidx]

/-- Two filter pairs with default index 2. -/
def pC8 : DialogParams :=
  { DialogParams.default with
      file_types := [("A", "*.a"), ("B", "*.b")], file_type_index := 2 }

/-- C8 witness: N = 2, K = 2 round-trips through a confirmed session. -/
theorem claim_C8_filter_round_trip_witness :
    (EnvSucceeds allOkEnv ∧ pC8.file_types.length = 2 ∧ pC8.file_type_index = 2 ∧
      1 ≤ 2 ∧ 2 ≤ 2 ∧ (∀ i, allOkEnv.userFileTypeIndex i = i)) ∧
    saveResult pC8 allOkEnv =
      Except.ok { selected_file_path := allOkEnv.saveItemName
                  selected_filter_index := 2 } :=
  ⟨⟨allOkEnv_succeeds, rfl, rfl, by decide, by decide, fun i => rfl⟩,
   (claim_C8_filter_round_trip pC8 allOkEnv 2 2 allOkEnv_succeeds rfl rfl
     (by decide) (by decide) (fun i => rfl)).1⟩

theorem callNames_saveOkEvs (env : NativeEnv) (p : DialogParams) :
    callNames (saveOkEvs env p) =
      ["CoInitializeEx", "CoCreateInstance - FileSaveDialog"] ++
      (if p.save_as_item ≠ "" then
        ["SHCreateItemFromParsingName", "IFileDialog::SetSaveAsItem"] else []) ++
      configureCallNames p ++
      ["IModalWindow::Show", "IFileDialog::GetResult",
       "IShellItem::GetDisplayName", "IFileDialog::GetFileTypeIndex"] := by
  rw [← callNames_configureEvs env p]
  unfold saveOkEvs callNames
  simp only [List.filterMap_append, apply_ite (List.filterMap Ev.methodOf)]
  simp [Ev.methodOf]

/-- C9: with a save-as seed item path, `save_dialog` resolves and binds it
immediately after dialog creation and before any shared-configuration call;
exactly one result item is retrieved (`IFileDialog::GetResult`, once), and
`IShellItem::GetAttributes` is never called. -/
theorem claim_C9_save_pre_step : ∀ (p : DialogParams) (env : NativeEnv),
    EnvSucceeds env → p.save_as_item ≠ "" →
    callNames (saveTrace p env) =
      ["CoInitializeEx", "CoCreateInstance - FileSaveDialog",
       "SHCreateItemFromParsingName", "IFileDialog::SetSaveAsItem"] ++
      configureCallNames p ++
      ["IModalWindow::Show", "IFileDialog::GetResult",
       "IShellItem::GetDisplayName", "IFileDialog::GetFileTypeIndex"] ∧
    "IShellItem::GetAttributes" ∉ callNames (saveTrace p env) ∧
    (callNames (saveTrace p env)).count "IFileDialog::GetResult" = 1 := by
  intro p env henv hsave
  have htr : saveTrace p env = saveOkEvs env p :=
    congrArg (fun x => x.2.trace) (save_run_ok henv p)
  have hcn : callNames (saveTrace p env) =
      ["CoInitializeEx", "CoCreateInstance - FileSaveDialog",
       "SHCreateItemFromParsingName", "IFileDialog::SetSaveAsItem"] ++
      configureCallNames p ++
      ["IModalWindow::Show", "IFileDialog::GetResult",
       "IShellItem::GetDisplayName", "IFileDialog::GetFileTypeIndex"] := by
    rw [htr, callNames_saveOkEvs, if_pos hsave]
    simp
  refine ⟨hcn, ?_, ?_⟩
  · rw [hcn]
    simp [List.mem_append, getAttributes_not_mem_configure p]
  · rw [hcn]
    simp [List.count_append, List.count_eq_zero.mpr (getResult_not_mem_configure p)]

/-- Params with a save-as seed item. -/
def pSave : DialogParams := { DialogParams.default with save_as_item := "C:/seed.txt" }

/-- C9 witness: a concrete seeded save session. -/
theorem claim_C9_save_pre_step_witness :
    (EnvSucceeds allOkEnv ∧ pSave.save_as_item ≠ "") ∧
    callNames (saveTrace pSave allOkEnv) =
      ["CoInitializeEx", "CoCreateInstance - FileSaveDialog",
       "SHCreateItemFromParsingName", "IFileDialog::SetSaveAsItem"] ++
      configureCallNames pSave ++
      ["IModalWindow::Show", "IFileDialog::GetResult",
       "IShellItem::GetDisplayName", "IFileDialog::GetFileTypeIndex"] :=
  ⟨⟨allOkEnv_succeeds, by decide⟩,
   (claim_C9_save_pre_step pSave allOkEnv allOkEnv_succeeds (by decide)).1⟩

end Wfd
